import Mathlib

/-!
Shallow embedding of the guardian supply-chain risk engine
(src/backend/core/graph_engine.py, simulation_engine.py, risk_calculator.py,
mitigation_engine.py) and proofs about the claims of the specification.

Modelling conventions:
* Python floats are modelled as exact rationals (`ℚ`); the claims under
  verification are about formulas, clamping, ordering and set evolution,
  none of which depend on rounding.
* Python dicts are modelled as insertion-ordered association lists
  (CPython dicts preserve insertion order); `networkx` node/edge attribute
  dicts and the adjacency structure are modelled the same way, so
  `successors` iterates targets in edge-insertion order exactly as
  `nx.DiGraph` does.
* Python sets are modelled as duplicate-free lists in insertion order.
  Within one process, CPython set iteration over equal contents is a fixed
  deterministic order, which is all the determinism claims need.
* Python exceptions are modelled with `Except`: every operation of the
  source that can raise (`nx` lookups of missing nodes, division by zero,
  subscripting a dataclass, `dict[key]` on a missing key) is embedded with
  its raise condition, and the error value carries the state as already
  mutated at the raise point, because the Python code mutates its state
  dicts in place.
* `random.random()` (the module-level PRNG) is modelled as an explicit
  stream of rationals with a cursor; seeding the global PRNG identically
  yields an identical stream.
-/

namespace Guardian

/-- A Python attribute value as stored in a node/edge attribute dict. -/
inductive PyVal where
  | str (s : String)
  | int (i : Int)
  | rat (q : ℚ)
deriving DecidableEq, Repr

/-- Association-list lookup, first binding wins (dict lookup). -/
def assocFind {κ β : Type} [DecidableEq κ] (k : κ) : List (κ × β) → Option β
  | [] => none
  | (k', v) :: rest => if k' = k then some v else assocFind k rest

/-- Association-list update: overwrite the binding in place if the key is
present (dicts keep the original position on overwrite), append otherwise. -/
def assocUpd {κ β : Type} [DecidableEq κ] (k : κ) (v : β) : List (κ × β) → List (κ × β)
  | [] => [(k, v)]
  | (k', v') :: rest => if k' = k then (k, v) :: rest else (k', v') :: assocUpd k v rest

/-- Key membership in an association list (`k in dict`). -/
def assocHas {κ β : Type} [DecidableEq κ] (k : κ) (l : List (κ × β)) : Bool :=
  (assocFind k l).isSome

/-- Embedding of `set.add`: append if not already present (sets modelled as
duplicate-free lists in insertion order). -/
def pySetAdd (l : List String) (x : String) : List String :=
  if x ∈ l then l else l ++ [x]

/-- Embedding of `set(xs)` for a list: deduplicate keeping first occurrences. -/
def pyDedup (l : List String) : List String :=
  l.foldl pySetAdd []

/-- Embedding of `dict.update` / `**kwargs` merge of attribute dicts. -/
def mergeAttrs (old new : List (String × PyVal)) : List (String × PyVal) :=
  new.foldl (fun acc kv => assocUpd kv.1 kv.2 acc) old

/-- Embedding of `.get(key, default)` for a rational-valued attribute. -/
def attrsGetRat (attrs : List (String × PyVal)) (k : String) (d : ℚ) : ℚ :=
  match assocFind k attrs with
  | some (.rat q) => q
  | some (.int i) => (i : ℚ)
  | _ => d

/-- Embedding of `.get('name', node_id)` for the display name of a node. -/
def attrsGetStr (attrs : List (String × PyVal)) (k : String) (d : String) : String :=
  match assocFind k attrs with
  | some (.str s) => s
  | _ => d

/-- Insert into an ascending sorted list (used to model the sort inside
`np.percentile`; any correct sort yields the same sorted sequence). -/
def insSortedAsc (x : ℚ) : List ℚ → List ℚ
  | [] => [x]
  | y :: ys => if x < y then x :: y :: ys else y :: insSortedAsc x ys

/-- Ascending sort of rationals. -/
def pySortAsc (l : List ℚ) : List ℚ :=
  l.foldl (fun acc x => insSortedAsc x acc) []

/-- Embedding of `np.percentile(values, q)` with the default linear interpolation:
sort ascending, take the virtual index `(n-1)*q/100` and interpolate
between its floor and ceiling entries.  `none` models the exception numpy
raises on an empty input. -/
def percentile_linear (q : Nat) (l : List ℚ) : Option ℚ :=
  match pySortAsc l with
  | [] => none
  | sorted =>
    let n := sorted.length
    let lo : Nat := ((n - 1) * q) / 100
    let frac : ℚ := (((n - 1) * q : Nat) : ℚ) / 100 - (lo : ℚ)
    let lov := sorted.getD lo 0
    let hiv := sorted.getD (if frac = 0 then lo else lo + 1) 0
    some (lov + frac * (hiv - lov))

/-- The errors that the embedded code paths can raise. -/
inductive PyErr where
  | nodeNotInGraph (n : String)
  | zeroDivision
  | notSubscriptable
  | keyErr (k : String)
  | indexErr
deriving DecidableEq, Repr

/-! ## Graph model (graph_engine.py, class SupplyChainGraph) -/

/-- Embedding of `NodeFeatures` dataclass (graph_engine.py lines 22-32). -/
structure NodeFeatures where
  node_id : String
  node_type : String
  tier : Int
  in_degree : Int
  out_degree : Int
  dependency_depth : Int
  risk_score : ℚ
  criticality_score : ℚ
  metadata : List (String × PyVal)
deriving DecidableEq, Repr

/-- The `nx` edge attribute dict written by `add_edge`
(keys edge_type, dependency_category, strength, criticality, plus metadata). -/
structure EdgeData where
  edge_type : String
  dependency_category : String
  strength : ℚ
  criticality : String
  metadata : List (String × PyVal)
deriving DecidableEq, Repr

/-- Embedding of `EdgeFeatures` dataclass (graph_engine.py lines 34-42). -/
structure EdgeFeatures where
  source : String
  target : String
  edge_type : String
  dependency_category : String
  strength : ℚ
  criticality : String
  metadata : List (String × PyVal)
deriving DecidableEq, Repr

/-- State of `SupplyChainGraph`: the `nx.DiGraph` (node attribute dicts and edge
attribute dicts in insertion order) plus the two feature stores. -/
structure SupplyChainGraph where
  nodes : List (String × List (String × PyVal))
  edges : List ((String × String) × EdgeData)
  node_features : List (String × NodeFeatures)
  edge_features : List ((String × String) × EdgeFeatures)
deriving DecidableEq, Repr

/-- Embedding of `SupplyChainGraph.__init__`. -/
def emptyGraph : SupplyChainGraph := ⟨[], [], [], []⟩

/-- Embedding of `graph.successors(n)`: targets of outgoing edges, in insertion order. -/
def successors (g : SupplyChainGraph) (n : String) : List String :=
  (g.edges.filter (fun e => e.1.1 = n)).map (fun e => e.1.2)

/-- Embedding of `graph.in_degree(n)`. -/
def inDegree (g : SupplyChainGraph) (n : String) : Nat :=
  (g.edges.filter (fun e => e.1.2 = n)).length

/-- Embedding of `graph.out_degree(n)`. -/
def outDegree (g : SupplyChainGraph) (n : String) : Nat :=
  (g.edges.filter (fun e => e.1.1 = n)).length

/-- Embedding of `graph.degree(n)` on a DiGraph: in-degree plus out-degree. -/
def totalDegree (g : SupplyChainGraph) (n : String) : Nat :=
  inDegree g n + outDegree g n

/-- Embedding of `node_features.get(n, default)` tier, default object has tier 3. -/
def nodeFeatTier (g : SupplyChainGraph) (n : String) : Int :=
  ((assocFind n g.node_features).map NodeFeatures.tier).getD 3

/-- Embedding of `node_features.get(n, default)` criticality, default object has 50. -/
def nodeFeatCriticality (g : SupplyChainGraph) (n : String) : ℚ :=
  ((assocFind n g.node_features).map NodeFeatures.criticality_score).getD 50

/-- Embedding of `graph.edges.get((s,t), {}).get('strength', 0.5)`. -/
def edgeStrengthNx (g : SupplyChainGraph) (s t : String) : ℚ :=
  ((assocFind (s, t) g.edges).map EdgeData.strength).getD (1/2)

/-- Embedding of `graph.edges.get((s,t), {}).get('dependency_category')`
(`none` models Python `None` for a missing edge/key). -/
def edgeCategoryNx (g : SupplyChainGraph) (s t : String) : Option String :=
  (assocFind (s, t) g.edges).map EdgeData.dependency_category

/-- Embedding of `edge_features.get((s,t), default)` strength, default object has 0.5. -/
def edgeFeatStrength (g : SupplyChainGraph) (s t : String) : ℚ :=
  ((assocFind (s, t) g.edge_features).map EdgeFeatures.strength).getD (1/2)

/-- Embedding of `_calculate_dependency_depth` (graph_engine.py lines 124-150): BFS from
the node over successors, returning the maximum depth reached.  The Python
while-loop performs at most `1 + |edges|` iterations (the initial queue
entry plus at most one push per edge, since each node is expanded once), so
the fuel `edges.length + 2` never runs out. -/
def bfsMaxDepth (g : SupplyChainGraph) : Nat → List (String × Nat) → List String → Nat → Nat
  | 0, _, _, maxd => maxd
  | _, [], _, maxd => maxd
  | fuel + 1, (cur, d) :: rest, visited, maxd =>
    if cur ∈ visited then bfsMaxDepth g fuel rest visited maxd
    else
      bfsMaxDepth g fuel
        (rest ++ (successors g cur).filterMap
          (fun s => if s ∈ visited then none else some (s, d + 1)))
        (visited ++ [cur]) (max maxd d)

/-- Embedding of `_calculate_dependency_depth`. -/
def dependency_depth (g : SupplyChainGraph) (n : String) : Nat :=
  if assocHas n g.nodes then bfsMaxDepth g (g.edges.length + 2) [(n, 0)] [] 0 else 0

/-- Embedding of `SupplyChainGraph.add_node` (graph_engine.py lines 63-92). -/
def add_node (g : SupplyChainGraph) (node_id node_type : String) (tier : Int)
    (risk_score criticality_score : ℚ) (metadata : List (String × PyVal)) :
    SupplyChainGraph :=
  let attrs := [("node_type", PyVal.str node_type), ("tier", PyVal.int tier),
                ("risk_score", PyVal.rat risk_score),
                ("criticality_score", PyVal.rat criticality_score)] ++ metadata
  let nodes' := match assocFind node_id g.nodes with
    | some old => assocUpd node_id (mergeAttrs old attrs) g.nodes
    | none => g.nodes ++ [(node_id, attrs)]
  let g1 := { g with nodes := nodes' }
  let nf : NodeFeatures :=
    ⟨node_id, node_type, tier, (inDegree g1 node_id : Int), (outDegree g1 node_id : Int),
     (dependency_depth g1 node_id : Int), risk_score, criticality_score, metadata⟩
  { g1 with node_features := assocUpd node_id nf g1.node_features }

/-- Models how `nx.DiGraph.add_edge` silently creates a missing endpoint as
a node with an empty attribute dict. -/
def nxEnsureNode (g : SupplyChainGraph) (n : String) : SupplyChainGraph :=
  if assocHas n g.nodes then g else { g with nodes := g.nodes ++ [(n, [])] }

/-- Update one entry of the `node_features` store, if present. -/
def updNodeFeature (g : SupplyChainGraph) (n : String) (f : NodeFeatures → NodeFeatures) :
    SupplyChainGraph :=
  match assocFind n g.node_features with
  | some nf => { g with node_features := assocUpd n (f nf) g.node_features }
  | none => g

/-- Embedding of `SupplyChainGraph.add_edge` (graph_engine.py lines 94-122).  There is no
validation: `nx.add_edge` silently creates missing endpoints, then the edge
features are recorded and the stored degrees of the endpoints refreshed. -/
def add_edge (g : SupplyChainGraph) (source target edge_type dependency_category : String)
    (strength : ℚ) (criticality : String) (metadata : List (String × PyVal)) :
    SupplyChainGraph :=
  let g1 := nxEnsureNode (nxEnsureNode g source) target
  let ed : EdgeData := ⟨edge_type, dependency_category, strength, criticality, metadata⟩
  let g2 := { g1 with edges := assocUpd (source, target) ed g1.edges }
  let ef : EdgeFeatures :=
    ⟨source, target, edge_type, dependency_category, strength, criticality, metadata⟩
  let g3 := { g2 with edge_features := assocUpd (source, target) ef g2.edge_features }
  let g4 := if assocHas source g3.node_features then
      updNodeFeature g3 source (fun nf => { nf with out_degree := (outDegree g3 source : Int) })
    else g3
  if assocHas target g4.node_features then
    updNodeFeature g4 target (fun nf => { nf with in_degree := (inDegree g4 target : Int) })
  else g4

/-- Embedding of `nx.DiGraph.remove_node`: drops the node and every incident edge.  The
caller (`_apply_mitigations`) does not touch `node_features`/`edge_features`,
faithfully matching the source. -/
def remove_node (g : SupplyChainGraph) (n : String) : SupplyChainGraph :=
  { g with nodes := g.nodes.filter (fun p => p.1 ≠ n),
           edges := g.edges.filter (fun e => e.1.1 ≠ n ∧ e.1.2 ≠ n) }

/-! ## Simulation engine (simulation_engine.py, class AdvancedSimulationEngine) -/

/-- Embedding of `SimulationStatus` enum. -/
inductive SimulationStatus where
  | pending
  | running
  | completed
  | failed
deriving DecidableEq, Repr

/-- The `metrics` dict built at the end of `_execute_simulation_step`
(fixed keys total_compromised, total_affected, propagation_rate,
network_coverage). -/
structure StepMetrics where
  total_compromised : Nat
  total_affected : Nat
  propagation_rate : Nat
  network_coverage : ℚ
deriving DecidableEq, Repr

/-- Embedding of `SimulationStep` dataclass (simulation_engine.py lines 28-36). -/
structure SimulationStep where
  step_number : Nat
  timestamp : ℚ
  action : String
  affected_nodes : List String
  new_compromised : List String
  propagation_paths : List (List String)
  metrics : StepMetrics
deriving DecidableEq, Repr

/-- Embedding of `SimulationResult` dataclass (simulation_engine.py lines 38-51).
`final_metrics`, `risk_analysis` and `mitigation_suggestions` are open
dicts/lists of dicts in the source. -/
structure SimulationResult where
  simulation_id : String
  status : SimulationStatus
  initial_compromised : List String
  final_compromised : List String
  total_affected : Nat
  blast_radius : Int
  cascade_depth : Nat
  propagation_time : ℚ
  steps : List SimulationStep
  final_metrics : List (String × PyVal)
  risk_analysis : List (String × PyVal)
  mitigation_suggestions : List (List (String × PyVal))
deriving DecidableEq, Repr

/-- The field names of the `SimulationResult` dataclass, in declaration
order, exactly as in simulation_engine.py lines 38-51.  Used to settle the
spec assertion that the result carries a `budget_exceeded` flag. -/
def simulationResultFieldNames : List String :=
  ["simulation_id", "status", "initial_compromised", "final_compromised",
   "total_affected", "blast_radius", "cascade_depth", "propagation_time",
   "steps", "final_metrics", "risk_analysis", "mitigation_suggestions"]

/-- The module-level `random` PRNG: a stream of draws plus a cursor.
Seeding the global generator identically reproduces the same stream. -/
structure Rng where
  stream : Nat → ℚ
  idx : Nat

/-- One call of `random.random()`. -/
def Rng.next (r : Rng) : ℚ × Rng :=
  (r.stream r.idx, ⟨r.stream, r.idx + 1⟩)

/-- The simulation state dict built in `run_simulation` lines 152-160 and
mutated in place by `_execute_simulation_step`. -/
structure SimState where
  compromised : List String
  propagating : List String
  affected : List String
  secure : List String
  step_number : Nat
  simulation_time : ℚ
  steps : List SimulationStep
deriving DecidableEq, Repr

/-- The configuration a simulation run reads from the engine object:
the shared graph, the optional GNN cascade-amplification predictions
(`gnn_engine.predict_cascade_amplification`), and the four parameters set
in `__init__` lines 72-76. -/
structure SimConfig where
  graph : SupplyChainGraph
  gnn_engine : Option (List (String × ℚ))
  base_propagation_probability : ℚ
  base_propagation_delay : ℚ
  max_simulation_steps : Nat
  max_simulation_time : ℚ

/-- State of `AdvancedSimulationEngine`: configuration plus the `active_simulations`
bookkeeping dict (modelled by the per-simulation status it stores; the
wall-clock `start_time` is not modelled, and the result value never reads
it). -/
structure AdvancedSimulationEngine where
  graph : SupplyChainGraph
  gnn_engine : Option (List (String × ℚ))
  base_propagation_probability : ℚ
  base_propagation_delay : ℚ
  max_simulation_steps : Nat
  max_simulation_time : ℚ
  active_simulations : List (String × SimulationStatus)

/-- Embedding of `AdvancedSimulationEngine.__init__` (lines 67-82): parameters 0.3,
delay 300, caps 20 and 10000. -/
def AdvancedSimulationEngine.init (g : SupplyChainGraph)
    (gnn : Option (List (String × ℚ))) : AdvancedSimulationEngine :=
  ⟨g, gnn, 3/10, 300, 20, 10000, []⟩

/-- The configuration view of an engine. -/
def AdvancedSimulationEngine.config (e : AdvancedSimulationEngine) : SimConfig :=
  ⟨e.graph, e.gnn_engine, e.base_propagation_probability, e.base_propagation_delay,
   e.max_simulation_steps, e.max_simulation_time⟩

/-- One `PropagationRule` (lines 53-59): the condition returns `none` when
the Python lambda raises (`_calculate_propagation_parameters` catches and
skips the rule in that case). -/
structure PropagationRule where
  name : String
  condition : SupplyChainGraph → String → String → Option Bool
  probability_modifier : ℚ
  delay_modifier : ℚ
  description : String

/-- Embedding of `_initialize_propagation_rules` (lines 84-133): the five rules in list
order.  The only condition that can raise is the in-degree percentile on an
empty node list (`np.percentile` of `[]`), modelled by `none`. -/
def propagation_rules : List PropagationRule :=
  [⟨"tier_amplification",
    fun g s _ => some (decide (nodeFeatTier g s = 1)), 3/2, 7/10,
    "Critical tier nodes propagate compromises faster and more reliably"⟩,
   ⟨"auth_dependency",
    fun g s t => some (decide (edgeCategoryNx g s t = some "authentication")), 2, 1/2,
    "Authentication dependencies create high-risk propagation paths"⟩,
   ⟨"api_integration",
    fun g s t => some (decide (edgeCategoryNx g s t = some "api_call")), 13/10, 8/10,
    "API integrations enable rapid compromise propagation"⟩,
   ⟨"strong_dependency",
    fun g s t => some (decide ((8:ℚ)/10 < edgeFeatStrength g s t)), 14/10, 9/10,
    "Strong dependencies increase propagation likelihood"⟩,
   ⟨"high_indegree_vulnerability",
    fun g _ t =>
      match percentile_linear 75 (g.nodes.map (fun n => (inDegree g n.1 : ℚ))) with
      | none => none
      | some p => some (decide (p < (inDegree g t : ℚ))), 12/10, 1,
    "Nodes with many dependencies are more vulnerable to compromise"⟩]

/-- The pre-modifier probability of `_calculate_propagation_parameters`
(lines 268-280): `probability = base_propagation_probability`, then
`probability *= edge_strength * (1 + target_vulnerability)` where
`target_vulnerability = 1 - criticality_score/100`. -/
def base_propagation_step (baseProb : ℚ) (g : SupplyChainGraph) (s t : String) : ℚ :=
  baseProb * (edgeStrengthNx g s t * (1 + (1 - nodeFeatCriticality g t / 100)))

/-- The rule-application loop of `_calculate_propagation_parameters`
(lines 282-289): each rule whose condition evaluates to true multiplies
probability and delay; a raising condition is caught and skipped. -/
def applyPropagationRules (g : SupplyChainGraph) (s t : String) (p d : ℚ) : ℚ × ℚ :=
  propagation_rules.foldl
    (fun pd r =>
      match r.condition g s t with
      | some true => (pd.1 * r.probability_modifier, pd.2 * r.delay_modifier)
      | _ => pd)
    (p, d)

/-- Embedding of `_calculate_propagation_parameters` (lines 266-304). -/
def calc_propagation_parameters (cfg : SimConfig) (s t : String) : ℚ × ℚ :=
  let p1 := base_propagation_step cfg.base_propagation_probability cfg.graph s t
  let pd := applyPropagationRules cfg.graph s t p1 cfg.base_propagation_delay
  let p3 := match cfg.gnn_engine with
    | none => pd.1
    | some preds => pd.1 * (1 + (assocFind s preds).getD (1/2))
  (min 1 (max 0 p3), max 50 pd.2)

/-- Accumulator of the scan loop of `_execute_simulation_step`
(lines 215-233): the local `propagating_nodes` and `propagation_paths`
lists, the in-place updated `simulation_time`, and the PRNG cursor. -/
structure ScanAcc where
  propagating : List String
  paths : List (List String)
  time : ℚ
  rng : Rng

/-- Inner loop over the successors of one compromised node: a stochastic
trial per still-secure target; on success the target and path are recorded
and the delay added to the clock. -/
def scanTargets (cfg : SimConfig) (src : String) (targets secure : List String)
    (acc : ScanAcc) : ScanAcc :=
  targets.foldl
    (fun a t =>
      if t ∈ secure then
        let pd := calc_propagation_parameters cfg src t
        let vr := a.rng.next
        if vr.1 < pd.1 then
          ⟨a.propagating ++ [t], a.paths ++ [[src, t]], a.time + pd.2, vr.2⟩
        else ⟨a.propagating, a.paths, a.time, vr.2⟩
      else a)
    acc

/-- Outer scan loop over `list(simulation_state['compromised'])`:
`graph.successors` raises for a node that is not in the graph, carrying the
partially updated clock out with the exception. -/
def scanCompromised (cfg : SimConfig) :
    List String → List String → ScanAcc → Except (ScanAcc × PyErr) ScanAcc
  | [], _, acc => .ok acc
  | c :: rest, secure, acc =>
    if assocHas c cfg.graph.nodes then
      scanCompromised cfg rest secure (scanTargets cfg c (successors cfg.graph c) secure acc)
    else .error (acc, .nodeNotInGraph c)

/-- Accumulator of the move loop (lines 235-240). -/
structure MoveAcc where
  secure : List String
  compromised : List String
  new_compromised : List String
deriving DecidableEq, Repr

/-- The move loop: each propagating node still secure is moved from
`secure` to `compromised` and recorded in `new_compromised`. -/
def movePropagating : List String → MoveAcc → MoveAcc
  | [], a => a
  | n :: rest, a =>
    if n ∈ a.secure then
      movePropagating rest ⟨a.secure.erase n, pySetAdd a.compromised n, a.new_compromised ++ [n]⟩
    else movePropagating rest a

/-- The affected-update loop (lines 242-246): for every compromised node,
every still-secure successor is added to `affected`.  `graph.neighbors`
raises for a node not in the graph; the partially grown `affected` set is
carried out with the exception. -/
def affectedUpdate (g : SupplyChainGraph) :
    List String → List String → List String → Except (List String × PyErr) (List String)
  | [], _, affected => .ok affected
  | c :: rest, secure, affected =>
    if assocHas c g.nodes then
      affectedUpdate g rest secure
        ((successors g c).foldl (fun acc n => if n ∈ secure then pySetAdd acc n else acc) affected)
    else .error (affected, .nodeNotInGraph c)

/-- Embedding of `_execute_simulation_step` (lines 208-264).  The error value carries the
simulation state as mutated up to the raise point, because the Python code
mutates the state dict in place. -/
def execute_simulation_step (cfg : SimConfig) (st : SimState) (rng : Rng) :
    Except (SimState × Rng × PyErr) (SimulationStep × SimState × Rng) :=
  match scanCompromised cfg st.compromised st.secure ⟨[], [], st.simulation_time, rng⟩ with
  | .error (acc, e) => .error ({ st with simulation_time := acc.time }, acc.rng, e)
  | .ok acc =>
    let mv := movePropagating acc.propagating ⟨st.secure, st.compromised, []⟩
    let st1 := { st with secure := mv.secure, compromised := mv.compromised,
                         simulation_time := acc.time }
    match affectedUpdate cfg.graph mv.compromised mv.secure st.affected with
    | .error (aff, e) => .error ({ st1 with affected := aff }, acc.rng, e)
    | .ok aff =>
      let st2 := { st1 with affected := aff }
      if cfg.graph.nodes.length = 0 then .error (st2, acc.rng, .zeroDivision)
      else
        let metrics : StepMetrics :=
          ⟨mv.compromised.length, aff.length, mv.new_compromised.length,
           ((mv.compromised.length : ℚ) + (aff.length : ℚ)) / (cfg.graph.nodes.length : ℚ)⟩
        .ok (⟨st.step_number, st2.simulation_time,
              "Propagation step " ++ toString st.step_number,
              aff, mv.new_compromised, acc.paths, metrics⟩, st2, acc.rng)

/-- The while-loop of `run_simulation` (lines 170-180).  The loop body
always leaves the loop during its first iteration: after a successful step
it evaluates `step_result['new_compromised']`, but `step_result` is a
`SimulationStep` dataclass, which is not subscriptable, so a `TypeError` is
raised (caught by the surrounding `try`); a failing step raises its own
exception.  Hence the while-loop is embedded as at most one iteration. -/
def runSimulationLoop (cfg : SimConfig) (st : SimState) (rng : Rng) :
    SimState × Rng × Option PyErr :=
  if st.step_number < cfg.max_simulation_steps ∧
     st.simulation_time < cfg.max_simulation_time then
    match execute_simulation_step cfg st rng with
    | .error (st', rng', e) => (st', rng', some e)
    | .ok (_, st', rng') => (st', rng', some .notSubscriptable)
  else (st, rng, none)

/-- The simulation state dict as initialised in lines 152-160. -/
def initSimState (g : SupplyChainGraph) (initial : List String) : SimState :=
  ⟨pyDedup initial, [], [],
   (pyDedup (g.nodes.map Prod.fst)).filter (fun n => ¬ n ∈ initial),
   0, 0, []⟩

/-- The `SimulationResult` built in the `except` branch of `run_simulation`
(lines 193-206): status FAILED, the partial state accumulated so far, and
empty final_metrics / risk_analysis / mitigation_suggestions. -/
def failedResult (simId : String) (initial : List String) (st : SimState) :
    SimulationResult :=
  ⟨simId, .failed, initial, st.compromised,
   st.compromised.length + st.affected.length,
   (st.compromised.length : Int) - (initial.length : Int),
   st.step_number, st.simulation_time, st.steps, [], [], []⟩

/-- Embedding of `run_simulation` over a configuration (lines 135-206), parametric in
`finalize`, the embedding of `_finalize_simulation` (lines 306-335): that
branch of the `try` is reachable only when the while-loop exits without an
exception, which for the engine's parameters never happens (see
`run_simulation_always_fails`), so the theorems below quantify over any
`finalize`.  Returns the result, the status stored into
`active_simulations`, and the advanced PRNG. -/
def run_simulationCfg (finalize : String → List String → SimState → SimulationResult)
    (cfg : SimConfig) (initial : List String) (simId : String) (rng : Rng) :
    SimulationResult × SimulationStatus × Rng :=
  let st0 := initSimState cfg.graph initial
  match runSimulationLoop cfg st0 rng with
  | (st, rng', some _) => (failedResult simId initial st, .failed, rng')
  | (st, rng', none) => (finalize simId initial st, .completed, rng')

/-- Embedding of `AdvancedSimulationEngine.run_simulation`: runs over the engine's
configuration and records the final status in `active_simulations`
(the entry is first set to RUNNING and then overwritten; only the final
value is observable after the call).  The `simulation_id` parameter is the
caller-supplied id (when the caller passes `None` the source derives one
from the wall clock, an input outside the model). -/
def run_simulation (finalize : String → List String → SimState → SimulationResult)
    (e : AdvancedSimulationEngine) (initial : List String) (simId : String) (rng : Rng) :
    SimulationResult × AdvancedSimulationEngine × Rng :=
  let out := run_simulationCfg finalize e.config initial simId rng
  (out.1, { e with active_simulations := assocUpd simId out.2.1 e.active_simulations },
   out.2.2)

/-! ## Mitigation application (simulation_engine.py lines 540-603) -/

/-- The `target` of a mitigation action dict: the producers pass either a
node id or a list of node ids (`isinstance(target, list)` is how the code
distinguishes them). -/
inductive MitTarget where
  | str (s : String)
  | list (l : List String)
deriving DecidableEq, Repr

/-- One mitigation action dict (keys `type` and `target`). -/
structure MitigationAction where
  action_type : String
  target : MitTarget
deriving DecidableEq, Repr

/-- One action of the loop body of `_apply_mitigations` (lines 579-601),
acting directly on the given graph object.  `redundancy` raises `KeyError`
when a node is in the nx graph but missing from `node_features`
(`node_features[node]` is an unguarded subscript). -/
def applyOneMitigation (g : SupplyChainGraph) (a : MitigationAction) :
    Except (SupplyChainGraph × PyErr) SupplyChainGraph :=
  if a.action_type = "isolation" then
    match a.target with
    | .str t => .ok (if assocHas t g.nodes then remove_node g t else g)
    | .list _ => .ok g
  else if a.action_type = "hardening" then
    match a.target with
    | .str t =>
      .ok (if assocHas t g.nodes then
        match assocFind t g.nodes with
        | some attrs =>
          { g with nodes :=
              assocUpd t (assocUpd "risk_score"
                (PyVal.rat (attrsGetRat attrs "risk_score" 0 * (3/10))) attrs) g.nodes }
        | none => g
      else g)
    | .list _ => .ok g
  else if a.action_type = "redundancy" then
    match a.target with
    | .str _ => .ok g
    | .list nodesL =>
      nodesL.foldlM
        (fun acc n =>
          if assocHas n acc.nodes then
            let current := nodeFeatCriticality acc n
            match assocFind n acc.node_features with
            | some nf =>
              let nf' := { nf with criticality_score := min 100 (current + 20) }
              .ok { acc with node_features := assocUpd n nf' acc.node_features }
            | none => .error (acc, .keyErr n)
          else .ok acc)
        g
  else .ok g

/-- Embedding of `_apply_mitigations` (lines 574-603).  The first statement,
`modified_graph = self.graph`, binds the *same* object as the engine's
shared graph (the comment in the source says a deep copy would be used "in
practice", but none is made), so every edit below acts on the caller's
graph; the returned graph and the engine's graph are one object, whose
final state this function computes. -/
def apply_mitigations (g : SupplyChainGraph) (actions : List MitigationAction) :
    Except (SupplyChainGraph × PyErr) SupplyChainGraph :=
  actions.foldlM applyOneMitigation g

/-- The effectiveness dict built by `simulate_mitigation_effectiveness`
(lines 561-570). -/
structure MitigationEffectiveness where
  baseline_impact : Nat
  mitigated_impact : Nat
  impact_reduction : Int
  impact_reduction_percentage : ℚ
  propagation_time_reduction : ℚ
  baseline_result : SimulationResult
  mitigated_result : SimulationResult
deriving DecidableEq, Repr

/-- Embedding of `simulate_mitigation_effectiveness` (lines 540-572): baseline run,
`_apply_mitigations` (which mutates the shared graph in place and returns
the same object), a mitigated run, and the restoration
`self.graph = original_graph` — which rebinds the attribute to the same,
already mutated object, so the engine keeps the mutated graph. -/
def simulate_mitigation_effectiveness
    (finalize : String → List String → SimState → SimulationResult)
    (e : AdvancedSimulationEngine) (initial : List String)
    (actions : List MitigationAction) (rng : Rng) :
    Except (AdvancedSimulationEngine × PyErr)
      (MitigationEffectiveness × AdvancedSimulationEngine × Rng) :=
  let base := run_simulation finalize e initial "baseline" rng
  match apply_mitigations base.2.1.graph actions with
  | .error (g', err) => .error ({ base.2.1 with graph := g' }, err)
  | .ok g' =>
    let e2 := { base.2.1 with graph := g' }
    let mit := run_simulation finalize e2 initial "mitigated" base.2.2
    .ok (⟨base.1.total_affected, mit.1.total_affected,
          (base.1.total_affected : Int) - (mit.1.total_affected : Int),
          (((base.1.total_affected : ℚ) - (mit.1.total_affected : ℚ)) /
            (max 1 (base.1.total_affected : ℚ))) * 100,
          base.1.propagation_time - mit.1.propagation_time,
          base.1, mit.1⟩,
         mit.2.1, mit.2.2)

/-! ## Centrality metrics (graph_engine.py lines 221-246) -/

/-- The per-node metrics dict built by `calculate_centrality_metrics`. -/
structure NodeCentrality where
  betweenness_centrality : ℚ
  closeness_centrality : ℚ
  pagerank : ℚ
  eigenvector_centrality : ℚ
  degree_centrality : ℚ
deriving DecidableEq, Repr

/-- Embedding of `graph.degree(node) / max(1, len(nodes) - 1)` (line 243). -/
def degree_centrality_of (g : SupplyChainGraph) (n : String) : ℚ :=
  (totalDegree g n : ℚ) / ((max 1 ((g.nodes.length : Int) - 1) : Int) : ℚ)

/-- Embedding of `calculate_centrality_metrics` (lines 221-246).  The four iterative
`nx` computations are supplied as oracles (`.error` models a raised
exception, e.g. non-convergence).  The single `try` wraps all four calls,
so if any of them raises, *all four* dicts are replaced by the fallback
constants of lines 232-235 (zeros, and `1/len(nodes)` for pagerank);
`degree_centrality` is computed afterwards for every node either way. -/
def calculate_centrality_metrics (g : SupplyChainGraph)
    (ob oc op oe : Except Unit (List (String × ℚ))) :
    List (String × NodeCentrality) :=
  let quad : List (String × ℚ) × List (String × ℚ) × List (String × ℚ) × List (String × ℚ) :=
    match ob, oc, op, oe with
    | .ok b, .ok c, .ok p, .ok ev => (b, c, p, ev)
    | _, _, _, _ =>
      (g.nodes.map (fun n => (n.1, (0:ℚ))),
       g.nodes.map (fun n => (n.1, (0:ℚ))),
       g.nodes.map (fun n => (n.1, 1 / (g.nodes.length : ℚ))),
       g.nodes.map (fun n => (n.1, (0:ℚ))))
  g.nodes.map (fun n =>
    (n.1,
     ⟨(assocFind n.1 quad.1).getD 0,
      (assocFind n.1 quad.2.1).getD 0,
      (assocFind n.1 quad.2.2.1).getD 0,
      (assocFind n.1 quad.2.2.2).getD 0,
      degree_centrality_of g n.1⟩))

/-! ## Structural vulnerabilities (graph_engine.py lines 248-282) -/

/-- The vulnerabilities dict of `identify_structural_vulnerabilities`. -/
structure StructuralVulns where
  single_points_of_failure : List String
  high_degree_nodes : List String
  bridge_nodes : List String
  critical_clusters : List String
deriving DecidableEq, Repr

/-- Embedding of `identify_structural_vulnerabilities` (lines 248-282).  Articulation
points and bridges are computed by `nx` on the undirected view and supplied
as oracles; each sits in its own `try`/`except pass`, so a raise leaves the
corresponding list empty.  The 90th-percentile degree threshold is *not*
guarded: on a graph with no nodes `np.percentile([] , 90)` raises out of
the whole function. -/
def identify_structural_vulnerabilities (g : SupplyChainGraph)
    (apO : Except Unit (List String)) (brO : Except Unit (List (String × String))) :
    Except PyErr StructuralVulns :=
  let spof := match apO with | .ok l => l | .error _ => []
  match percentile_linear 90 (g.nodes.map (fun n => (totalDegree g n.1 : ℚ))) with
  | none => .error .indexErr
  | some thr =>
    let hi := (g.nodes.map Prod.fst).filter (fun n => thr ≤ (totalDegree g n : ℚ))
    let bn := match brO with
      | .ok br => pyDedup (br.foldl (fun acc e => pySetAdd (pySetAdd acc e.1) e.2) [])
      | .error _ => []
    .ok ⟨spof, hi, bn, []⟩

/-! ## Risk scorer (risk_calculator.py, class AdvancedRiskCalculator) -/

/-- The `risk_weights` dict of `AdvancedRiskCalculator.__init__`
(lines 45-51). -/
structure RiskWeights where
  base_risk : ℚ
  structural_risk : ℚ
  cascade_amplification : ℚ
  centrality_risk : ℚ
deriving DecidableEq, Repr

/-- The default weights (0.25, 0.30, 0.25, 0.20). -/
def risk_weights : RiskWeights := ⟨1/4, 3/10, 1/4, 1/5⟩

/-- Embedding of `tier_multipliers.get(tier, 1.0)` with the dict of lines 53-57:
3.0 for tier 1, 2.0 for tier 2, 1.0 for tier 3, default 1.0. -/
def tier_multiplier (tier : Int) : ℚ :=
  if tier = 1 then 3 else if tier = 2 then 2 else if tier = 3 then 1 else 1

/-- The spec's `clamp01`. -/
def clamp01 (x : ℚ) : ℚ := max 0 (min 1 x)

/-- The combination step of `calculate_node_risk_profiles`
(lines 132-143): the weighted sum of the four sub-scores, multiplied by the
tier multiplier and clamped from above with `min(1.0, ...)` — there is no
clamp from below in the source. -/
def combined_risk (base structural cascade centrality : ℚ) (tier : Int) : ℚ :=
  min 1 ((base * risk_weights.base_risk + structural * risk_weights.structural_risk +
          cascade * risk_weights.cascade_amplification +
          centrality * risk_weights.centrality_risk) * tier_multiplier tier)

/-- Embedding of `_determine_risk_level` (lines 263-272), as the bucket name. -/
def determine_risk_level (combined : ℚ) : String :=
  if 8/10 ≤ combined then "critical"
  else if 6/10 ≤ combined then "high"
  else if 3/10 ≤ combined then "medium"
  else "low"

/-! ## Mitigation engine (mitigation_engine.py, class AdvancedMitigationEngine) -/

/-- One strategy dict produced by `generate_mitigation_strategies`
(its fixed keys; `riskReduction`, `priority` and `affectedVendors` are
Python ints). -/
structure MitStrategy where
  id : String
  title : String
  riskReduction : Int
  effectiveness : String
  implementationTime : String
  cost : String
  priority : Int
  affectedVendors : Int
  category : String
  description : String
  technicalDetails : String
  businessJustification : String
deriving DecidableEq, Repr

/-- Embedding of `f'mit_{n:03d}'` zero padding. -/
def pad3 (n : Nat) : String :=
  if n < 10 then "00" ++ toString n
  else if n < 100 then "0" ++ toString n
  else toString n

/-- Embedding of `graph.nodes.get(node_id, {}).get('name', node_id)`. -/
def nodeName (g : SupplyChainGraph) (n : String) : String :=
  attrsGetStr ((assocFind n g.nodes).getD []) "name" n

/-- Stable insertion preserving the original order of equal keys, with the
later element placed after earlier ones (Python sorts are stable). -/
def insStableBy {α : Type} (lt : α → α → Bool) (x : α) : List α → List α
  | [] => [x]
  | y :: ys => if lt x y then x :: y :: ys else y :: insStableBy lt x ys

/-- Stable sort: insert the elements left to right. -/
def stableSortBy {α : Type} (lt : α → α → Bool) (l : List α) : List α :=
  l.foldl (fun acc x => insStableBy lt x acc) []

/-- Append strategies from a list of seeds, stopping as soon as the running
list has reached `num_strategies` (the `if len(strategies) >= num: break`
pattern of the three loops). -/
def addStrategiesCapped {α : Type} (num : Nat) (mk : α → Nat → MitStrategy) :
    List α → List MitStrategy → List MitStrategy
  | [], cur => cur
  | t :: rest, cur =>
    if num ≤ cur.length then cur
    else addStrategiesCapped num mk rest (cur ++ [mk t cur.length])

/-- Strategy 1 (lines 56-75): top single point of failure, riskReduction
68, priority 1. -/
def spofStrategy (g : SupplyChainGraph) (spof : List String) : List MitStrategy :=
  match spof with
  | [] => []
  | top :: _ =>
    let name := nodeName g top
    [⟨"mit_001", "Implement Redundancy for " ++ name, 68, "very_high", "2 weeks", "$", 1,
      ((successors g top).length : Int) + 1, "redundancy",
      "Deploy backup systems for " ++ name ++ " to eliminate single point of failure.",
      "Configure secondary provider with real-time synchronization and automatic failover.",
      "Eliminates critical dependency on " ++ name ++ ", protecting downstream services."⟩]

/-- Strategy 2 seed constructor (lines 86-105): the i-th
highest-betweenness node, riskReduction `55 - i*5`, priority `i + 2`. -/
def centralityStrategy (g : SupplyChainGraph) (seed : Nat × (String × NodeCentrality))
    (curLen : Nat) : MitStrategy :=
  let i := seed.1
  let node := seed.2.1
  let name := nodeName g node
  ⟨"mit_" ++ pad3 (curLen + 1), "Enhanced Security for " ++ name, 55 - 5 * (i : Int),
   if i = 0 then "high" else "medium", "3 weeks", "$$", (i : Int) + 2,
   ((successors g node).length : Int), "hardening",
   "Implement additional security controls for " ++ name ++ ".",
   "Deploy advanced monitoring and zero-trust access controls.",
   name ++ " is a critical network hub protecting multiple dependencies."⟩

/-- A category/additional strategy template: category, title, description,
riskReduction, cost. -/
structure StrategyTemplate where
  category : String
  title : String
  description : String
  riskReduction : Int
  cost : String
deriving DecidableEq, Repr

/-- The `category_strategies` templates (lines 110-132). -/
def category_strategies : List StrategyTemplate :=
  [⟨"authentication", "Multi-Factor Authentication Redundancy",
    "Deploy secondary authentication provider as failover system.", 45, "$$"⟩,
   ⟨"monitoring", "Real-time Threat Monitoring",
    "Implement comprehensive monitoring and alerting system.", 35, "$"⟩,
   ⟨"isolation", "Network Segmentation Enhancement",
    "Implement micro-segmentation for critical vendors.", 40, "$"⟩]

/-- The `additional_strategies` templates (lines 154-176). -/
def additional_strategies : List StrategyTemplate :=
  [⟨"monitoring", "Vendor Risk Assessment Automation",
    "Implement automated continuous risk assessment for all vendors.", 25, "$"⟩,
   ⟨"hardening", "Incident Response Plan Enhancement",
    "Develop comprehensive incident response procedures for supply chain events.", 30, "$"⟩,
   ⟨"monitoring", "Supply Chain Visibility Platform",
    "Deploy comprehensive visibility and tracking platform.", 20, "$$"⟩]

/-- Strategy 3 constructor (lines 134-151). -/
def categoryStrategy (t : StrategyTemplate) (curLen : Nat) : MitStrategy :=
  ⟨"mit_" ++ pad3 (curLen + 1), t.title, t.riskReduction, "high", "4 weeks", t.cost,
   (curLen : Int) + 1, 5, t.category, t.description,
   "Implement " ++ t.category ++ " controls across vendor ecosystem.",
   "Reduces risk across " ++ t.category ++ " category."⟩

/-- The filler-strategy constructor (lines 178-195). -/
def additionalStrategy (t : StrategyTemplate) (curLen : Nat) : MitStrategy :=
  ⟨"mit_" ++ pad3 (curLen + 1), t.title, t.riskReduction, "medium", "3 weeks", t.cost,
   (curLen : Int) + 1, 3, t.category, t.description,
   "Deploy " ++ t.title.toLower ++ " across supply chain.",
   "Improves overall supply chain security posture."⟩

/-- Embedding of `AdvancedMitigationEngine.generate_mitigation_strategies`
(mitigation_engine.py lines 48-199).  The articulation-point and bridge
computations and the four iterative centrality metrics are supplied as
oracles exactly as in `identify_structural_vulnerabilities` and
`calculate_centrality_metrics`.  The final list is sorted by priority
(stable ascending) and truncated to `num_strategies`. -/
def generate_mitigation_strategies (g : SupplyChainGraph)
    (apO : Except Unit (List String)) (brO : Except Unit (List (String × String)))
    (ob oc op oe : Except Unit (List (String × ℚ)))
    (num_strategies : Nat) : Except PyErr (List MitStrategy) :=
  match identify_structural_vulnerabilities g apO brO with
  | .error e => .error e
  | .ok vulns =>
    let s1 := spofStrategy g vulns.single_points_of_failure
    let cent := calculate_centrality_metrics g ob oc op oe
    let high := (stableSortBy
      (fun a b => b.2.betweenness_centrality < a.2.betweenness_centrality) cent).take 3
    let s2 := addStrategiesCapped num_strategies (centralityStrategy g) high.enum s1
    let s3 := addStrategiesCapped num_strategies categoryStrategy category_strategies s2
    let s4 := addStrategiesCapped num_strategies additionalStrategy additional_strategies s3
    .ok ((stableSortBy (fun a b => a.priority < b.priority) s4).take num_strategies)

/-! ## Concrete instances and helpers used by the claim theorems -/

/-- The state component of a step outcome (the state dict after
`_execute_simulation_step` returns or raises). -/
def stepOutcomeState :
    Except (SimState × Rng × PyErr) (SimulationStep × SimState × Rng) → SimState
  | .error (st, _, _) => st
  | .ok (_, st, _) => st

/-- The spec's base-probability formula, written from the words of the
specification sentence "compute base probability =
edge.strength × (1 − t.criticality_score/100)" for comparison with the
source's computation. -/
def spec_base_probability (strength criticality : ℚ) : ℚ :=
  strength * (1 - criticality / 100)

/-- A concrete PRNG stream: every draw is 1/2. -/
def rngHalf : Rng := ⟨fun _ => 1/2, 0⟩

/-- Arbitrary instantiation of the `finalize` parameter, standing in for
the provably unreachable success branch of `run_simulation`
(`_finalize_simulation`); by `run_simulationCfg_eq_failed` below the choice
cannot influence any run with the engine's parameters. -/
def unreachedFinalize : String → List String → SimState → SimulationResult :=
  fun simId initial st =>
    ⟨simId, .completed, initial, st.compromised, 0, 0, 0, 0, [], [], [], []⟩

/-- Two-node graph A→B with an authentication edge of strength 1, source
tier 1, both criticality scores 0 (built through `add_node`/`add_edge`). -/
def g4 : SupplyChainGraph :=
  add_edge (add_node (add_node emptyGraph "A" "vendor" 1 0 0 []) "B" "software" 3 0 0 [])
    "A" "B" "depends_on" "authentication" 1 "high" []

/-- Two-node graph S→T with a data-flow edge of strength 1/2 and target
criticality 0. -/
def g5 : SupplyChainGraph :=
  add_edge (add_node (add_node emptyGraph "S" "vendor" 3 0 0 []) "T" "software" 3 0 0 [])
    "S" "T" "depends_on" "data_flow" (1/2) "medium" []

/-- Three-node path A→B→C. -/
def g7 : SupplyChainGraph :=
  add_edge
    (add_edge
      (add_node (add_node (add_node emptyGraph "A" "vendor" 3 0 0 []) "B" "vendor" 3 0 0 [])
        "C" "vendor" 3 0 0 [])
      "A" "B" "depends_on" "data_flow" 1 "medium" [])
    "B" "C" "depends_on" "data_flow" 1 "medium" []

/-- Single-node graph with one node A. -/
def g8 : SupplyChainGraph := add_node emptyGraph "A" "vendor" 1 0 0 []

/-- The graph g8 after `add_edge("A", "B", ...)` where node B does not
exist beforehand. -/
def g8' : SupplyChainGraph := add_edge g8 "A" "B" "depends_on" "data_flow" 1 "medium" []

/-- Single-node graph with one node V. -/
def g9 : SupplyChainGraph := add_node emptyGraph "V" "vendor" 2 0 0 []

/-! ## Shared lemmas -/

/-- Membership is preserved by `pySetAdd`, and the added element is a
member. -/
theorem mem_pySetAdd (l : List String) (x y : String) (h : y ∈ l ∨ y = x) :
    y ∈ pySetAdd l x := by
  unfold pySetAdd
  rcases h with h | rfl
  · split <;> simp [h]
  · split
    · assumption
    · simp

/-- Elements of the accumulator or of the folded list are members of a
`pySetAdd` fold. -/
theorem mem_foldl_pySetAdd (l : List String) :
    ∀ (acc : List String) (x : String), (x ∈ acc ∨ x ∈ l) → x ∈ l.foldl pySetAdd acc := by
  induction l with
  | nil =>
    intro acc x h
    rcases h with h | h
    · simpa using h
    · cases h
  | cons a as ih =>
    intro acc x h
    simp only [List.foldl_cons]
    rcases h with h | h
    · exact ih _ x (Or.inl (mem_pySetAdd acc a x (Or.inl h)))
    · rcases List.mem_cons.mp h with rfl | h
      · exact ih _ x (Or.inl (mem_pySetAdd acc x x (Or.inr rfl)))
      · exact ih _ x (Or.inr h)

/-- Every member of a list is a member of its deduplication. -/
theorem mem_pyDedup (l : List String) (x : String) (h : x ∈ l) : x ∈ pyDedup l :=
  mem_foldl_pySetAdd l [] x (Or.inr h)

/-- The move loop only ever adds nodes to the compromised set. -/
theorem movePropagating_compromised_mono (l : List String) :
    ∀ a : MoveAcc, a.compromised ⊆ (movePropagating l a).compromised ∧
      a.compromised.length ≤ (movePropagating l a).compromised.length := by
  induction l with
  | nil => intro a; exact ⟨fun x h => h, le_refl _⟩
  | cons n rest ih =>
    intro a
    unfold movePropagating
    split
    · have h2 := ih ⟨a.secure.erase n, pySetAdd a.compromised n, a.new_compromised ++ [n]⟩
      constructor
      · intro x hx
        exact h2.1 (mem_pySetAdd a.compromised n x (Or.inl hx))
      · refine le_trans ?_ h2.2
        unfold pySetAdd
        split
        · exact le_refl _
        · simp
    · exact ih a

/-- The wave function `_execute_simulation_step` never removes a node from the compromised
set, whether it returns or raises: the Python code only moves nodes from
`secure` into `compromised`. -/
theorem execute_step_compromised_mono (cfg : SimConfig) (st : SimState) (rng : Rng) :
    st.compromised ⊆ (stepOutcomeState (execute_simulation_step cfg st rng)).compromised ∧
    st.compromised.length ≤
      (stepOutcomeState (execute_simulation_step cfg st rng)).compromised.length := by
  unfold execute_simulation_step
  rcases hs : scanCompromised cfg st.compromised st.secure ⟨[], [], st.simulation_time, rng⟩ with
    ⟨acc, e⟩ | acc
  · simp only [hs, stepOutcomeState]
    exact ⟨fun x h => h, le_refl _⟩
  · simp only [hs]
    have hmv := movePropagating_compromised_mono acc.propagating ⟨st.secure, st.compromised, []⟩
    rcases ha : affectedUpdate cfg.graph
        (movePropagating acc.propagating ⟨st.secure, st.compromised, []⟩).compromised
        (movePropagating acc.propagating ⟨st.secure, st.compromised, []⟩).secure st.affected with
      ⟨aff, e⟩ | aff
    · simp only [ha, stepOutcomeState]
      exact hmv
    · simp only [ha]
      split
      · simp only [stepOutcomeState]
        exact hmv
      · simp only [stepOutcomeState]
        exact hmv

/-- With the engine's parameters the while-loop of `run_simulation` always
leaves with an exception during its first iteration (a failing step raises,
and after a successful step the break check subscripts the `SimulationStep`
dataclass, raising `TypeError`). -/
theorem runSimulationLoop_raises (cfg : SimConfig) (st : SimState) (rng : Rng)
    (h1 : st.step_number < cfg.max_simulation_steps)
    (h2 : st.simulation_time < cfg.max_simulation_time) :
    (runSimulationLoop cfg st rng).2.2.isSome := by
  unfold runSimulationLoop
  rw [if_pos ⟨h1, h2⟩]
  rcases hstep : execute_simulation_step cfg st rng with ⟨st', rng', err⟩ | ⟨step, st', rng'⟩
  · simp
  · simp

/-- With positive caps, `run_simulation` over a configuration always takes
the `except` branch: the result is the FAILED partial result built from the
loop's final state, whatever `finalize` is. -/
theorem run_simulationCfg_eq_failed
    (finalize : String → List String → SimState → SimulationResult)
    (cfg : SimConfig) (initial : List String) (simId : String) (rng : Rng)
    (h1 : 0 < cfg.max_simulation_steps) (h2 : 0 < cfg.max_simulation_time) :
    run_simulationCfg finalize cfg initial simId rng =
      (failedResult simId initial
         (runSimulationLoop cfg (initSimState cfg.graph initial) rng).1,
       SimulationStatus.failed,
       (runSimulationLoop cfg (initSimState cfg.graph initial) rng).2.1) := by
  have hs : (runSimulationLoop cfg (initSimState cfg.graph initial) rng).2.2.isSome :=
    runSimulationLoop_raises cfg _ rng (by simpa [initSimState] using h1)
      (by simpa [initSimState] using h2)
  unfold run_simulationCfg
  dsimp only
  rcases hL : runSimulationLoop cfg (initSimState cfg.graph initial) rng with ⟨st, rng', opt⟩
  rcases opt with _ | e
  · rw [hL] at hs; simp at hs
  · rfl

/-! ## Evaluated forms of the concrete instances -/

/-- The value of `g4` (checked definitionally below). -/
def g4lit : SupplyChainGraph :=
  ⟨[("A", [("node_type", .str "vendor"), ("tier", .int 1), ("risk_score", .rat 0),
           ("criticality_score", .rat 0)]),
    ("B", [("node_type", .str "software"), ("tier", .int 3), ("risk_score", .rat 0),
           ("criticality_score", .rat 0)])],
   [(("A", "B"), ⟨"depends_on", "authentication", 1, "high", []⟩)],
   [("A", ⟨"A", "vendor", 1, 0, 1, 0, 0, 0, []⟩),
    ("B", ⟨"B", "software", 3, 1, 0, 0, 0, 0, []⟩)],
   [(("A", "B"), ⟨"A", "B", "depends_on", "authentication", 1, "high", []⟩)]⟩

theorem g4_eq_lit : g4 = g4lit := by rfl

/-- The configuration of the engine built on `g4`. -/
def cfg4 : SimConfig := ⟨g4lit, none, 3/10, 300, 20, 10000⟩

theorem cfg4_graph : cfg4.graph = g4lit := rfl

theorem init_g4_config : (AdvancedSimulationEngine.init g4 none).config = cfg4 := by rfl

/-- On `g4`, the propagation probability A→B clamps to 1 (base 0.6, tier
1.5, authentication 2.0, strong edge 1.4, high in-degree 1.2) and the delay
is 300·0.7·0.5·0.9 = 94.5. -/
theorem calc_g4 : calc_propagation_parameters cfg4 "A" "B" = (1, 189/2) := by
  simp [calc_propagation_parameters, base_propagation_step, applyPropagationRules,
    propagation_rules, edgeCategoryNx, edgeFeatStrength, nodeFeatTier, nodeFeatCriticality,
    edgeStrengthNx, percentile_linear, pySortAsc, insSortedAsc, inDegree, assocFind, cfg4, g4lit]
  norm_num

/-- The one wave the engine executes on `g4` from A: B is compromised. -/
theorem step_g4 :
    execute_simulation_step cfg4 ⟨["A"], [], [], ["B"], 0, 0, []⟩ rngHalf =
      .ok (⟨0, 189/2, "Propagation step 0", [], ["B"], [["A", "B"]], ⟨2, 0, 1, 1⟩⟩,
           ⟨["A", "B"], [], [], [], 0, 189/2, []⟩, ⟨fun _ => 1/2, 1⟩) := by
  simp [execute_simulation_step, scanCompromised, scanTargets, successors, assocHas, assocFind,
    calc_g4, cfg4_graph, g4lit, Rng.next, rngHalf, movePropagating, pySetAdd, affectedUpdate]
  norm_num
  simp [movePropagating, pySetAdd, affectedUpdate, assocHas, assocFind, successors, g4lit]
  rfl

theorem loop_g4 :
    runSimulationLoop cfg4 ⟨["A"], [], [], ["B"], 0, 0, []⟩ rngHalf =
      (⟨["A", "B"], [], [], [], 0, 189/2, []⟩, ⟨fun _ => 1/2, 1⟩, some .notSubscriptable) := by
  rw [runSimulationLoop, if_pos (by constructor <;> norm_num [cfg4]), step_g4]

theorem runCfg_g4 (simId : String) :
    run_simulationCfg unreachedFinalize cfg4 ["A"] simId rngHalf =
      (⟨simId, .failed, ["A"], ["A", "B"], 2, 1, 0, 189/2, [], [], [], []⟩,
       SimulationStatus.failed, ⟨fun _ => 1/2, 1⟩) := by
  have hinit : initSimState cfg4.graph ["A"] = ⟨["A"], [], [], ["B"], 0, 0, []⟩ := by
    simp [initSimState, cfg4_graph, g4lit, pyDedup, pySetAdd]
  unfold run_simulationCfg
  rw [hinit]
  dsimp only
  rw [loop_g4]
  rfl

/-- The full run on `g4` from A: one wave compromises B, then the run
fails at the break check and returns the FAILED partial result. -/
theorem run_g4 (simId : String) :
    run_simulation unreachedFinalize (AdvancedSimulationEngine.init g4 none) ["A"] simId rngHalf =
      (⟨simId, .failed, ["A"], ["A", "B"], 2, 1, 0, 189/2, [], [], [], []⟩,
       ⟨g4, none, 3/10, 300, 20, 10000, [(simId, .failed)]⟩,
       ⟨fun _ => 1/2, 1⟩) := by
  unfold run_simulation
  rw [init_g4_config, runCfg_g4]
  rfl

/-- The value of `g4` after `remove_node "B"`: the node entry and incident edge are
gone from the nx graph; the feature stores are untouched (the source never
cleans them up). -/
def g4rlit : SupplyChainGraph :=
  ⟨[("A", [("node_type", .str "vendor"), ("tier", .int 1), ("risk_score", .rat 0),
           ("criticality_score", .rat 0)])],
   [],
   [("A", ⟨"A", "vendor", 1, 0, 1, 0, 0, 0, []⟩),
    ("B", ⟨"B", "software", 3, 1, 0, 0, 0, 0, []⟩)],
   [(("A", "B"), ⟨"A", "B", "depends_on", "authentication", 1, "high", []⟩)]⟩

theorem g4r_eq_lit : remove_node g4 "B" = g4rlit := by rfl

/-- Applying the isolation action for B to `g4` removes node B in place. -/
theorem apply_mit_g4 :
    apply_mitigations g4 [⟨"isolation", .str "B"⟩] = .ok (remove_node g4 "B") := by rfl

/-- The configuration of the engine after B was removed. -/
def cfgR : SimConfig := ⟨g4rlit, none, 3/10, 300, 20, 10000⟩

theorem step_g4r :
    execute_simulation_step cfgR ⟨["A"], [], [], [], 0, 0, []⟩ (⟨fun _ => 1/2, 1⟩ : Rng) =
      .ok (⟨0, 0, "Propagation step 0", [], [], [], ⟨1, 0, 0, 1⟩⟩,
           ⟨["A"], [], [], [], 0, 0, []⟩, ⟨fun _ => 1/2, 1⟩) := by
  simp [execute_simulation_step, scanCompromised, scanTargets, successors, assocHas, assocFind,
    cfgR, g4rlit, movePropagating, affectedUpdate]
  rfl

theorem loop_g4r :
    runSimulationLoop cfgR ⟨["A"], [], [], [], 0, 0, []⟩ (⟨fun _ => 1/2, 1⟩ : Rng) =
      (⟨["A"], [], [], [], 0, 0, []⟩, ⟨fun _ => 1/2, 1⟩, some .notSubscriptable) := by
  rw [runSimulationLoop, if_pos (by constructor <;> norm_num [cfgR]), step_g4r]

theorem runCfg_g4r (simId : String) :
    run_simulationCfg unreachedFinalize cfgR ["A"] simId (⟨fun _ => 1/2, 1⟩ : Rng) =
      (⟨simId, .failed, ["A"], ["A"], 1, 0, 0, 0, [], [], [], []⟩,
       SimulationStatus.failed, ⟨fun _ => 1/2, 1⟩) := by
  have hinit : initSimState cfgR.graph ["A"] = ⟨["A"], [], [], [], 0, 0, []⟩ := by
    simp [initSimState, cfgR, g4rlit, pyDedup, pySetAdd]
  unfold run_simulationCfg
  rw [hinit]
  dsimp only
  rw [loop_g4r]
  rfl

theorem run_g4r :
    run_simulation unreachedFinalize
      (⟨remove_node g4 "B", none, 3/10, 300, 20, 10000,
        [("baseline", .failed)]⟩ : AdvancedSimulationEngine)
      ["A"] "mitigated" (⟨fun _ => 1/2, 1⟩ : Rng) =
      (⟨"mitigated", .failed, ["A"], ["A"], 1, 0, 0, 0, [], [], [], []⟩,
       ⟨remove_node g4 "B", none, 3/10, 300, 20, 10000,
        [("baseline", .failed), ("mitigated", .failed)]⟩,
       ⟨fun _ => 1/2, 1⟩) := by
  have hc : (⟨remove_node g4 "B", none, 3/10, 300, 20, 10000,
      [("baseline", .failed)]⟩ : AdvancedSimulationEngine).config = cfgR := by rfl
  unfold run_simulation
  rw [hc, runCfg_g4r]
  rfl

/-- Steps recorded in the state are unchanged by one execution of
`_execute_simulation_step` (the append happens in `run_simulation`, after
the break check — which always raises first). -/
theorem execute_step_steps_eq (cfg : SimConfig) (st : SimState) (rng : Rng) :
    (stepOutcomeState (execute_simulation_step cfg st rng)).steps = st.steps := by
  unfold execute_simulation_step
  rcases hs : scanCompromised cfg st.compromised st.secure ⟨[], [], st.simulation_time, rng⟩ with
    ⟨acc, e⟩ | acc
  · simp only [hs, stepOutcomeState]
  · simp only [hs]
    rcases ha : affectedUpdate cfg.graph
        (movePropagating acc.propagating ⟨st.secure, st.compromised, []⟩).compromised
        (movePropagating acc.propagating ⟨st.secure, st.compromised, []⟩).secure st.affected with
      ⟨aff, e⟩ | aff
    · simp only [ha, stepOutcomeState]
    · simp only [ha]
      split
      · simp only [stepOutcomeState]
      · simp only [stepOutcomeState]

/-- The final state of the while-loop extends the compromised set of the
entering state and keeps its step list. -/
theorem runSimulationLoop_state (cfg : SimConfig) (st : SimState) (rng : Rng) :
    st.compromised ⊆ (runSimulationLoop cfg st rng).1.compromised ∧
    st.compromised.length ≤ (runSimulationLoop cfg st rng).1.compromised.length ∧
    (runSimulationLoop cfg st rng).1.steps = st.steps := by
  unfold runSimulationLoop
  split
  · rcases hstep : execute_simulation_step cfg st rng with ⟨st', rng', err⟩ | ⟨step, st', rng'⟩
    · have h1 := execute_step_compromised_mono cfg st rng
      have h2 := execute_step_steps_eq cfg st rng
      rw [hstep] at h1 h2
      simpa [stepOutcomeState] using ⟨h1.1, h1.2, h2⟩
    · have h1 := execute_step_compromised_mono cfg st rng
      have h2 := execute_step_steps_eq cfg st rng
      rw [hstep] at h1 h2
      simpa [stepOutcomeState] using ⟨h1.1, h1.2, h2⟩
  · exact ⟨fun x h => h, le_refl _, rfl⟩

/-- C1.  For every graph, every initial_compromised list and every seed,
two calls of `run_simulation` on engines that agree on the graph, the
optional GNN predictions and the simulation parameters — differing at most
in the `active_simulations` bookkeeping left behind by earlier runs — with
the module PRNG seeded identically (same stream and cursor) and the same
caller-supplied simulation id return equal `SimulationResult` values: the
same ordered step/wave trace, the same final_compromised list, the same
propagation_time, and every other field.  In particular a second call on
the same engine with the PRNG re-seeded reproduces the first result
byte for byte. -/
theorem C1_run_simulation_deterministic
    (finalize : String → List String → SimState → SimulationResult)
    (e1 e2 : AdvancedSimulationEngine) (initial : List String) (simId : String) (rng : Rng)
    (hg : e1.graph = e2.graph) (hgnn : e1.gnn_engine = e2.gnn_engine)
    (hp : e1.base_propagation_probability = e2.base_propagation_probability)
    (hd : e1.base_propagation_delay = e2.base_propagation_delay)
    (hms : e1.max_simulation_steps = e2.max_simulation_steps)
    (hmt : e1.max_simulation_time = e2.max_simulation_time) :
    (run_simulation finalize e1 initial simId rng).1 =
      (run_simulation finalize e2 initial simId rng).1 := by
  have hc : e1.config = e2.config := by
    unfold AdvancedSimulationEngine.config
    rw [hg, hgnn, hp, hd, hms, hmt]
  show (run_simulationCfg finalize e1.config initial simId rng).1 =
    (run_simulationCfg finalize e2.config initial simId rng).1
  rw [hc]

/-- Witness for C1: two engines over `g4` that differ only in the
bookkeeping of an earlier simulation produce identical results. -/
theorem C1_witness :
    ((AdvancedSimulationEngine.init g4 none).graph =
      (⟨g4, none, 3/10, 300, 20, 10000, [("old", .completed)]⟩ : AdvancedSimulationEngine).graph) ∧
    (run_simulation unreachedFinalize (AdvancedSimulationEngine.init g4 none) ["A"] "sim" rngHalf).1 =
      (run_simulation unreachedFinalize
        (⟨g4, none, 3/10, 300, 20, 10000, [("old", .completed)]⟩ : AdvancedSimulationEngine)
        ["A"] "sim" rngHalf).1 :=
  ⟨rfl, C1_run_simulation_deterministic unreachedFinalize _ _ ["A"] "sim" rngHalf
    rfl rfl rfl rfl rfl rfl⟩

/-- C2.  For every graph, initial set and seed: the result of
`run_simulation` (on an engine with the parameters set by `__init__`)
satisfies final_compromised ⊇ initial_compromised; the recorded
total_compromised counts along the returned wave trace are non-decreasing;
and at the level of one propagation wave (`_execute_simulation_step`) the
compromised set of the state only ever gains members — no node leaves it
and its size cannot decrease — whether the wave returns or raises. -/
theorem C2_compromised_monotone
    (finalize : String → List String → SimState → SimulationResult)
    (g : SupplyChainGraph) (gnn : Option (List (String × ℚ)))
    (active : List (String × SimulationStatus)) (initial : List String) (simId : String)
    (rng : Rng) (cfg : SimConfig) (st : SimState) (rng' : Rng) :
    (∀ x ∈ initial,
      x ∈ (run_simulation finalize (⟨g, gnn, 3/10, 300, 20, 10000, active⟩ :
            AdvancedSimulationEngine) initial simId rng).1.final_compromised) ∧
    List.Chain' (· ≤ ·)
      (((run_simulation finalize (⟨g, gnn, 3/10, 300, 20, 10000, active⟩ :
          AdvancedSimulationEngine) initial simId rng).1.steps).map
        (fun s => s.metrics.total_compromised)) ∧
    st.compromised ⊆ (stepOutcomeState (execute_simulation_step cfg st rng')).compromised ∧
    st.compromised.length ≤
      (stepOutcomeState (execute_simulation_step cfg st rng')).compromised.length := by
  have hcfg : (⟨g, gnn, 3/10, 300, 20, 10000, active⟩ :
      AdvancedSimulationEngine).config = ⟨g, gnn, 3/10, 300, 20, 10000⟩ := rfl
  have hrun : (run_simulation finalize (⟨g, gnn, 3/10, 300, 20, 10000, active⟩ :
      AdvancedSimulationEngine) initial simId rng).1 =
      (run_simulationCfg finalize (⟨g, gnn, 3/10, 300, 20, 10000⟩ : SimConfig)
        initial simId rng).1 := by
    show (run_simulationCfg finalize (⟨g, gnn, 3/10, 300, 20, 10000, active⟩ :
      AdvancedSimulationEngine).config initial simId rng).1 = _
    rw [hcfg]
  have heq := run_simulationCfg_eq_failed finalize ⟨g, gnn, 3/10, 300, 20, 10000⟩
    initial simId rng (by norm_num) (by norm_num)
  have hloop := runSimulationLoop_state (⟨g, gnn, 3/10, 300, 20, 10000⟩ : SimConfig)
    (initSimState g initial) rng
  refine ⟨?_, ?_, (execute_step_compromised_mono cfg st rng').1,
    (execute_step_compromised_mono cfg st rng').2⟩
  · intro x hx
    rw [hrun, heq]
    exact hloop.1 (mem_pyDedup initial x hx)
  · rw [hrun, heq]
    have hsteps : (failedResult simId initial
        (runSimulationLoop (⟨g, gnn, 3/10, 300, 20, 10000⟩ : SimConfig)
          (initSimState g initial) rng).1).steps = [] := by
      show (runSimulationLoop (⟨g, gnn, 3/10, 300, 20, 10000⟩ : SimConfig)
        (initSimState g initial) rng).1.steps = []
      rw [hloop.2.2]
      rfl
    rw [hsteps]
    simp

/-- Witness for C2: on the concrete graph `g4`, the initially compromised
node A is contained in the final compromised set of the run. -/
theorem C2_witness :
    "A" ∈ (run_simulation unreachedFinalize
      (⟨g4, none, 3/10, 300, 20, 10000, []⟩ : AdvancedSimulationEngine)
      ["A"] "sim" rngHalf).1.final_compromised :=
  (C2_compromised_monotone unreachedFinalize g4 none [] ["A"] "sim" rngHalf
    cfg4 ⟨["A"], [], [], ["B"], 0, 0, []⟩ rngHalf).1 "A" (by decide)

/-- C3 (code bug).  The spec requires that a mitigation-effectiveness
evaluation never mutates the caller's shared graph in place, all
destructive edits happening on a private clone.  The code violates this:
`_apply_mitigations` starts with `modified_graph = self.graph` — an alias,
not a copy (its own comment says a deep copy would be used "in practice") —
so the node removal edits the caller's graph object, and the `finally`
restore only rebinds the attribute to the same mutated object.  At the
concrete failing input (graph `g4` owning nodes A and B, action
`{'type': 'isolation', 'target': 'B'}`), after
`simulate_mitigation_effectiveness` returns, the engine's — i.e. the
caller's — graph has lost node B and its edge. -/
theorem C3_shared_graph_mutated_in_place :
    g4.nodes.map Prod.fst = ["A", "B"] ∧
    ((simulate_mitigation_effectiveness unreachedFinalize
        (AdvancedSimulationEngine.init g4 none) ["A"]
        [⟨"isolation", .str "B"⟩] rngHalf).toOption.map
      (fun out => out.2.1.graph)) = some (remove_node g4 "B") ∧
    (remove_node g4 "B").nodes.map Prod.fst = ["A"] := by
  refine ⟨by rfl, ?_, by rfl⟩
  unfold simulate_mitigation_effectiveness
  rw [run_g4]
  dsimp only
  rw [apply_mit_g4]
  dsimp only
  rw [run_g4r]
  rfl

/-- C4 (code bug).  The claim describes the intended loop of
`run_simulation`: up to 20 waves, stopping at the first empty wave or at
the wave/time cap, with a budget_exceeded flag in the result.  The code's
loop instead always terminates during its first iteration: the break check
`step_result['new_compromised']` subscripts the `SimulationStep` dataclass,
raising `TypeError`, which the surrounding `except` converts into a FAILED
result.  On the concrete graph `g4` (A compromises B with probability 1 in
wave 1, far from both caps) the run nevertheless stops with status FAILED,
an empty step trace and cascade_depth 0 — and `SimulationResult` carries no
`budget_exceeded` field at all. -/
theorem C4_stops_after_first_wave :
    (run_simulation unreachedFinalize (AdvancedSimulationEngine.init g4 none)
        ["A"] "sim" rngHalf).1.status = .failed ∧
    (run_simulation unreachedFinalize (AdvancedSimulationEngine.init g4 none)
        ["A"] "sim" rngHalf).1.steps = [] ∧
    (run_simulation unreachedFinalize (AdvancedSimulationEngine.init g4 none)
        ["A"] "sim" rngHalf).1.cascade_depth = 0 ∧
    (run_simulation unreachedFinalize (AdvancedSimulationEngine.init g4 none)
        ["A"] "sim" rngHalf).1.final_compromised = ["A", "B"] ∧
    (run_simulation unreachedFinalize (AdvancedSimulationEngine.init g4 none)
        ["A"] "sim" rngHalf).1.propagation_time = 189/2 ∧
    (run_simulation unreachedFinalize (AdvancedSimulationEngine.init g4 none)
        ["A"] "sim" rngHalf).1.propagation_time <
      (AdvancedSimulationEngine.init g4 none).max_simulation_time ∧
    ¬ "budget_exceeded" ∈ simulationResultFieldNames := by
  rw [run_g4]
  refine ⟨rfl, rfl, rfl, rfl, rfl, ?_, by decide⟩
  show (189 : ℚ)/2 < 10000
  norm_num

/-- C10.  `run_simulation` never propagates an exception: every raise
inside the `try` (a missing node in the graph, the division by zero on an
empty graph, or the `TypeError` of the dataclass subscript at the break
check — one of which occurs in every run) is caught, and the call returns a
`SimulationResult` with status FAILED carrying exactly the partial state
accumulated so far — final_compromised, blast_radius, cascade_depth,
propagation_time and steps from the interrupted state — and empty
final_metrics, risk_analysis and mitigation_suggestions.  In the embedding
`run_simulation` is a total function: no error value escapes it. -/
theorem C10_exception_returns_failed_partial_result
    (finalize : String → List String → SimState → SimulationResult)
    (g : SupplyChainGraph) (gnn : Option (List (String × ℚ)))
    (active : List (String × SimulationStatus)) (initial : List String)
    (simId : String) (rng : Rng) :
    let e : AdvancedSimulationEngine := ⟨g, gnn, 3/10, 300, 20, 10000, active⟩
    let st := (runSimulationLoop e.config (initSimState g initial) rng).1
    let r := (run_simulation finalize e initial simId rng).1
    r = failedResult simId initial st ∧
    r.status = .failed ∧ r.final_metrics = [] ∧ r.risk_analysis = [] ∧
    r.mitigation_suggestions = [] ∧
    r.final_compromised = st.compromised ∧
    r.propagation_time = st.simulation_time ∧
    r.steps = st.steps ∧ r.cascade_depth = st.step_number ∧
    r.blast_radius = (st.compromised.length : Int) - (initial.length : Int) := by
  intro e st r
  have hr : r = (run_simulationCfg finalize e.config initial simId rng).1 := rfl
  have heq := run_simulationCfg_eq_failed finalize e.config initial simId rng
    (by norm_num [AdvancedSimulationEngine.config]) (by norm_num [AdvancedSimulationEngine.config])
  have hgr : e.config.graph = g := rfl
  rw [hgr] at heq
  have hfin : r = failedResult simId initial st := by rw [hr, heq]
  exact ⟨hfin, by rw [hfin]; rfl, by rw [hfin]; rfl, by rw [hfin]; rfl, by rw [hfin]; rfl,
    by rw [hfin]; rfl, by rw [hfin]; rfl, by rw [hfin]; rfl, by rw [hfin]; rfl,
    by rw [hfin]; rfl⟩

/-- The value of `g5`. -/
def g5lit : SupplyChainGraph :=
  ⟨[("S", [("node_type", .str "vendor"), ("tier", .int 3), ("risk_score", .rat 0),
           ("criticality_score", .rat 0)]),
    ("T", [("node_type", .str "software"), ("tier", .int 3), ("risk_score", .rat 0),
           ("criticality_score", .rat 0)])],
   [(("S", "T"), ⟨"depends_on", "data_flow", 1/2, "medium", []⟩)],
   [("S", ⟨"S", "vendor", 3, 0, 1, 0, 0, 0, []⟩),
    ("T", ⟨"T", "software", 3, 1, 0, 0, 0, 0, []⟩)],
   [(("S", "T"), ⟨"S", "T", "depends_on", "data_flow", 1/2, "medium", []⟩)]⟩

theorem g5_eq_lit : g5 = g5lit := by rfl

/-- C5, counterexample.  On the edge S→T of `g5` with strength 1/2 and
target criticality 0, the spec formula gives 1/2 but the code's
pre-modifier probability (lines 268-280) is
0.3 · 0.5 · (1 + (1 − 0)) = 0.3: the two disagree, because the code
multiplies by the engine's base probability 0.3 and uses
(1 + vulnerability), not (1 − criticality/100) alone. -/
theorem C5_counterexample :
    edgeStrengthNx g5 "S" "T" = 1/2 ∧
    nodeFeatCriticality g5 "T" = 0 ∧
    base_propagation_step (3/10) g5 "S" "T" = 3/10 ∧
    spec_base_probability (edgeStrengthNx g5 "S" "T") (nodeFeatCriticality g5 "T") = 1/2 ∧
    base_propagation_step (3/10) g5 "S" "T" ≠
      spec_base_probability (edgeStrengthNx g5 "S" "T") (nodeFeatCriticality g5 "T") := by
  have h1 : edgeStrengthNx g5 "S" "T" = 1/2 := by
    rw [g5_eq_lit]; simp [edgeStrengthNx, assocFind, g5lit]
  have h2 : nodeFeatCriticality g5 "T" = 0 := by
    rw [g5_eq_lit]; simp [nodeFeatCriticality, assocFind, g5lit]
  have h3 : base_propagation_step (3/10) g5 "S" "T" = 3/10 := by
    unfold base_propagation_step
    rw [h1, h2]
    norm_num
  refine ⟨h1, h2, h3, ?_, ?_⟩
  · rw [h1, h2]; unfold spec_base_probability; norm_num
  · rw [h1, h2, h3]; unfold spec_base_probability; norm_num

/-- C5, amended.  In every propagation attempt from `s` along an existing
edge to a target `t` with recorded node features, the probability before
any rule modifier is applied equals
base_propagation_probability (0.3) × edge.strength ×
(2 − t.criticality_score/100) — that is, 0.3 × strength ×
(1 + (1 − criticality/100)) — not strength × (1 − criticality/100). -/
theorem C5_base_probability_amended (g : SupplyChainGraph) (s t : String)
    (ed : EdgeData) (nf : NodeFeatures)
    (he : assocFind (s, t) g.edges = some ed)
    (hn : assocFind t g.node_features = some nf) :
    base_propagation_step (3/10) g s t =
      3/10 * ed.strength * (2 - nf.criticality_score / 100) := by
  unfold base_propagation_step edgeStrengthNx nodeFeatCriticality
  rw [he, hn]
  simp only [Option.map_some', Option.getD_some]
  ring

/-- Witness for C5's amended statement at the edge S→T of `g5`. -/
theorem C5_witness :
    assocFind ("S", "T") g5.edges =
      some (⟨"depends_on", "data_flow", 1/2, "medium", []⟩ : EdgeData) ∧
    assocFind "T" g5.node_features =
      some (⟨"T", "software", 3, 1, 0, 0, 0, 0, []⟩ : NodeFeatures) ∧
    base_propagation_step (3/10) g5 "S" "T" =
      3/10 * (⟨"depends_on", "data_flow", 1/2, "medium", []⟩ : EdgeData).strength *
        (2 - (⟨"T", "software", 3, 1, 0, 0, 0, 0, []⟩ : NodeFeatures).criticality_score / 100) :=
  ⟨by rfl, by rfl,
   C5_base_probability_amended g5 "S" "T" _ _ (by rfl) (by rfl)⟩

/-- C6.  The risk scorer's combination step: with the four sub-scores
non-negative (as they are for data-model-conforming inputs — each sub-score
computation clamps at 0 and the stored risk scores and predictor outputs
are non-negative), the code's `min(1.0, weighted_sum × tier_multiplier)`
equals clamp01 of the spec formula with weights (0.25, 0.30, 0.25, 0.20),
the result lies in [0, 1], and the tier multipliers are 3.0, 2.0, 1.0 for
tiers 1, 2, 3. -/
theorem C6_combined_risk_clamped (base structural cascade centrality : ℚ) (tier : Int)
    (hb : 0 ≤ base) (hstr : 0 ≤ structural) (hca : 0 ≤ cascade) (hce : 0 ≤ centrality) :
    combined_risk base structural cascade centrality tier =
      clamp01 ((25/100 * base + 30/100 * structural + 25/100 * cascade +
        20/100 * centrality) * tier_multiplier tier) ∧
    0 ≤ combined_risk base structural cascade centrality tier ∧
    combined_risk base structural cascade centrality tier ≤ 1 ∧
    tier_multiplier 1 = 3 ∧ tier_multiplier 2 = 2 ∧ tier_multiplier 3 = 1 := by
  have hmult : 0 < tier_multiplier tier := by
    unfold tier_multiplier
    split_ifs <;> norm_num
  have hx : 0 ≤ (25/100 * base + 30/100 * structural + 25/100 * cascade +
      20/100 * centrality) * tier_multiplier tier := by
    apply mul_nonneg _ (le_of_lt hmult)
    have t1 : 0 ≤ (25:ℚ)/100 * base := mul_nonneg (by norm_num) hb
    have t2 : 0 ≤ (30:ℚ)/100 * structural := mul_nonneg (by norm_num) hstr
    have t3 : 0 ≤ (25:ℚ)/100 * cascade := mul_nonneg (by norm_num) hca
    have t4 : 0 ≤ (20:ℚ)/100 * centrality := mul_nonneg (by norm_num) hce
    linarith
  have hform : combined_risk base structural cascade centrality tier =
      min 1 ((25/100 * base + 30/100 * structural + 25/100 * cascade +
        20/100 * centrality) * tier_multiplier tier) := by
    unfold combined_risk risk_weights
    ring_nf
  have hclamp : clamp01 ((25/100 * base + 30/100 * structural + 25/100 * cascade +
      20/100 * centrality) * tier_multiplier tier) =
      min 1 ((25/100 * base + 30/100 * structural + 25/100 * cascade +
        20/100 * centrality) * tier_multiplier tier) := by
    unfold clamp01
    exact max_eq_right (le_min zero_le_one hx)
  refine ⟨by rw [hform, hclamp], ?_, ?_, by norm_num [tier_multiplier],
    by norm_num [tier_multiplier], by norm_num [tier_multiplier]⟩
  · rw [hform]
    exact le_min zero_le_one hx
  · rw [hform]
    exact min_le_left _ _

/-- Witness for C6 at sub-scores all 1/2 and tier 1. -/
theorem C6_witness :
    (0 ≤ (1:ℚ)/2) ∧
    (combined_risk (1/2) (1/2) (1/2) (1/2) 1 =
      clamp01 ((25/100 * (1/2) + 30/100 * (1/2) + 25/100 * (1/2) +
        20/100 * (1/2)) * tier_multiplier 1) ∧
     0 ≤ combined_risk (1/2) (1/2) (1/2) (1/2) 1 ∧
     combined_risk (1/2) (1/2) (1/2) (1/2) 1 ≤ 1 ∧
     tier_multiplier 1 = 3 ∧ tier_multiplier 2 = 2 ∧ tier_multiplier 3 = 1) :=
  ⟨by norm_num,
   C6_combined_risk_clamped (1/2) (1/2) (1/2) (1/2) 1
     (by norm_num) (by norm_num) (by norm_num) (by norm_num)⟩

/-- Looking up any key in a constant-valued association map yields the
constant or nothing. -/
theorem assocFind_map_const {α β : Type} (c : β) (k : String) :
    ∀ l : List (String × α),
      assocFind k (l.map (fun m => (m.1, c))) = none ∨
      assocFind k (l.map (fun m => (m.1, c))) = some c := by
  intro l
  induction l with
  | nil => exact Or.inl rfl
  | cons a as ih =>
    simp only [List.map_cons, assocFind]
    split
    · exact Or.inr rfl
    · exact ih

/-- Looking up a present key in a constant-valued association map yields
the constant. -/
theorem assocFind_map_const_mem {α β : Type} (c : β) (k : String) :
    ∀ l : List (String × α), k ∈ l.map Prod.fst →
      assocFind k (l.map (fun m => (m.1, c))) = some c := by
  intro l
  induction l with
  | nil => intro h; cases h
  | cons a as ih =>
    intro h
    simp only [List.map_cons, assocFind]
    split
    · rfl
    · rename_i hne
      rcases List.mem_cons.mp h with h | h
      · exact absurd h.symm hne
      · exact ih h

/-- C7, counterexample.  On the path graph `g7`, suppose betweenness,
closeness and pagerank were computed successfully (the oracle values below
are what `nx` returns for this graph) but eigenvector centrality raised.
The claim says only the failed metric is substituted; in the code the
single `try` of lines 225-235 discards all four computed dicts, so the
returned betweenness of the middle node B is the fallback 0, not the
computed 1/2 — and the substitute is a constant, not degree centrality. -/
theorem C7_counterexample :
    assocFind "B" [("A", (0:ℚ)), ("B", 1/2), ("C", 0)] = some (1/2) ∧
    (assocFind "B" (calculate_centrality_metrics g7
        (.ok [("A", 0), ("B", 1/2), ("C", 0)])
        (.ok [("A", 0), ("B", 1/2), ("C", 2/3)])
        (.ok [("A", 1/5), ("B", 2/5), ("C", 2/5)])
        (.error ()))).map NodeCentrality.betweenness_centrality = some 0 ∧
    ((1:ℚ)/2 ≠ 0) := by
  refine ⟨by rfl, ?_, by norm_num⟩
  rw [show g7 = ⟨[("A", [("node_type", .str "vendor"), ("tier", .int 3), ("risk_score", .rat 0),
        ("criticality_score", .rat 0)]),
      ("B", [("node_type", .str "vendor"), ("tier", .int 3), ("risk_score", .rat 0),
        ("criticality_score", .rat 0)]),
      ("C", [("node_type", .str "vendor"), ("tier", .int 3), ("risk_score", .rat 0),
        ("criticality_score", .rat 0)])],
     [(("A", "B"), ⟨"depends_on", "data_flow", 1, "medium", []⟩),
      (("B", "C"), ⟨"depends_on", "data_flow", 1, "medium", []⟩)],
     [("A", ⟨"A", "vendor", 3, 0, 1, 0, 0, 0, []⟩),
      ("B", ⟨"B", "vendor", 3, 1, 1, 0, 0, 0, []⟩),
      ("C", ⟨"C", "vendor", 3, 1, 0, 0, 0, 0, []⟩)],
     [(("A", "B"), ⟨"A", "B", "depends_on", "data_flow", 1, "medium", []⟩),
      (("B", "C"), ⟨"B", "C", "depends_on", "data_flow", 1, "medium", []⟩)]⟩ from rfl]
  simp [calculate_centrality_metrics, assocFind, degree_centrality_of]

/-- C7, amended.  When any of the four iterative centrality computations
raises (non-convergence or numerical failure), `calculate_centrality_metrics`
still returns without aborting, but replaces *all four* metrics with the
fixed fallback constants of lines 232-235 — 0 for betweenness, closeness
and eigenvector and 1/len(nodes) for pagerank, not degree centrality —
while the separately computed degree centrality of line 243 is still
reported per node. -/
theorem C7_fallback_amended (g : SupplyChainGraph)
    (ob oc op oe : Except Unit (List (String × ℚ)))
    (h : ob = .error () ∨ oc = .error () ∨ op = .error () ∨ oe = .error ()) :
    ∀ p ∈ calculate_centrality_metrics g ob oc op oe,
      p.2.betweenness_centrality = 0 ∧ p.2.closeness_centrality = 0 ∧
      p.2.pagerank = 1 / (g.nodes.length : ℚ) ∧
      p.2.eigenvector_centrality = 0 ∧
      p.2.degree_centrality = degree_centrality_of g p.1 := by
  intro p hp
  have hfall : calculate_centrality_metrics g ob oc op oe =
      g.nodes.map (fun n =>
        (n.1,
         ⟨(assocFind n.1 (g.nodes.map (fun m => (m.1, (0:ℚ))))).getD 0,
          (assocFind n.1 (g.nodes.map (fun m => (m.1, (0:ℚ))))).getD 0,
          (assocFind n.1 (g.nodes.map (fun m => (m.1, 1 / (g.nodes.length : ℚ))))).getD 0,
          (assocFind n.1 (g.nodes.map (fun m => (m.1, (0:ℚ))))).getD 0,
          degree_centrality_of g n.1⟩)) := by
    unfold calculate_centrality_metrics
    rcases ob with u | b
    · rfl
    · rcases oc with u | c
      · rfl
      · rcases op with u | pr
        · rfl
        · rcases oe with u | ev
          · rfl
          · rcases h with h | h | h | h <;> simp at h
  rw [hfall] at hp
  rcases List.mem_map.mp hp with ⟨n, hn, rfl⟩
  have hkey : n.1 ∈ g.nodes.map Prod.fst := List.mem_map.mpr ⟨n, hn, rfl⟩
  have hzero : (assocFind n.1 (g.nodes.map (fun m => (m.1, (0:ℚ))))).getD 0 = 0 := by
    rcases assocFind_map_const (0:ℚ) n.1 g.nodes with h0 | h0 <;> rw [h0] <;> rfl
  have hpr : (assocFind n.1
      (g.nodes.map (fun m => (m.1, 1 / (g.nodes.length : ℚ))))).getD 0 =
      1 / (g.nodes.length : ℚ) := by
    rw [assocFind_map_const_mem _ _ _ hkey]
    rfl
  exact ⟨hzero, hzero, hpr, hzero, rfl⟩

/-- Witness for C7's amended statement: on `g7` with the eigenvector oracle
failing, the first returned entry carries the fallback constants. -/
theorem C7_witness :
    ((.ok [("A", (0:ℚ)), ("B", 1/2), ("C", 0)] : Except Unit (List (String × ℚ))) = .error () ∨
     (.ok [("A", (0:ℚ)), ("B", 1/2), ("C", 2/3)] : Except Unit (List (String × ℚ))) = .error () ∨
     (.ok [("A", (1:ℚ)/5), ("B", 2/5), ("C", 2/5)] : Except Unit (List (String × ℚ))) = .error () ∨
     (.error () : Except Unit (List (String × ℚ))) = .error ()) ∧
    (∀ p ∈ calculate_centrality_metrics g7
        (.ok [("A", 0), ("B", 1/2), ("C", 0)])
        (.ok [("A", 0), ("B", 1/2), ("C", 2/3)])
        (.ok [("A", 1/5), ("B", 2/5), ("C", 2/5)])
        (.error ()),
      p.2.betweenness_centrality = 0 ∧ p.2.closeness_centrality = 0 ∧
      p.2.pagerank = 1 / (g7.nodes.length : ℚ) ∧
      p.2.eigenvector_centrality = 0 ∧
      p.2.degree_centrality = degree_centrality_of g7 p.1) :=
  ⟨Or.inr (Or.inr (Or.inr rfl)),
   C7_fallback_amended g7 _ _ _ _ (Or.inr (Or.inr (Or.inr rfl)))⟩

/-- The helper `updNodeFeature` leaves the node dict unchanged. -/
theorem updNodeFeature_nodes (g : SupplyChainGraph) (n : String)
    (f : NodeFeatures → NodeFeatures) : (updNodeFeature g n f).nodes = g.nodes := by
  unfold updNodeFeature
  split <;> rfl

/-- The helper `updNodeFeature` leaves the edge dict unchanged. -/
theorem updNodeFeature_edges (g : SupplyChainGraph) (n : String)
    (f : NodeFeatures → NodeFeatures) : (updNodeFeature g n f).edges = g.edges := by
  unfold updNodeFeature
  split <;> rfl

/-- A key appended at the back of an association list is found. -/
theorem assocHas_append_self {β : Type} (k : String) (v : β) :
    ∀ l : List (String × β), assocHas k (l ++ [(k, v)]) = true := by
  intro l
  induction l with
  | nil => simp [assocHas, assocFind]
  | cons a as ih =>
    simp only [List.cons_append, assocHas, assocFind]
    split
    · rfl
    · exact ih

/-- Node auto-creation guarantees the node is present afterwards. -/
theorem assocHas_nxEnsureNode (g : SupplyChainGraph) (n : String) :
    assocHas n (nxEnsureNode g n).nodes = true := by
  unfold nxEnsureNode
  split
  · assumption
  · exact assocHas_append_self n [] g.nodes

/-- Updating a binding makes it findable. -/
theorem assocFind_assocUpd {κ β : Type} [DecidableEq κ] (k : κ) (v : β) :
    ∀ l : List (κ × β), assocFind k (assocUpd k v l) = some v := by
  intro l
  induction l with
  | nil => simp [assocUpd, assocFind]
  | cons a as ih =>
    simp only [assocUpd]
    split
    · simp [assocFind]
    · rename_i hne
      simp only [assocFind]
      rw [if_neg hne]
      exact ih

/-- A binding found in a prefix list is found in the appended list. -/
theorem assocFind_append_left {κ β : Type} [DecidableEq κ] (k : κ) (v : β)
    (l' : List (κ × β)) :
    ∀ l : List (κ × β), assocFind k l = some v → assocFind k (l ++ l') = some v := by
  intro l
  induction l with
  | nil =>
    intro h
    simp [assocFind] at h
  | cons a as ih =>
    intro h
    simp only [assocFind, List.cons_append] at h ⊢
    by_cases hc : a.1 = k
    · simp only [hc, if_pos] at h ⊢
      simpa using h
    · simp only [if_neg hc] at h ⊢
      exact ih h

/-- Key presence is monotone under `nxEnsureNode`. -/
theorem assocHas_nxEnsureNode_mono (g : SupplyChainGraph) (n m : String)
    (h : assocHas n g.nodes = true) : assocHas n (nxEnsureNode g m).nodes = true := by
  unfold nxEnsureNode
  split
  · assumption
  · unfold assocHas at h ⊢
    rcases ho : assocFind n g.nodes with _ | v
    · rw [ho] at h; simp at h
    · rw [assocFind_append_left n v [(m, [])] g.nodes ho]
      rfl

/-- After `add_edge` the node dict is exactly what the two `nx` auto-creation
steps produce: the later edge/feature updates never touch it. -/
theorem add_edge_nodes (g : SupplyChainGraph)
    (source target et dc : String) (s : ℚ) (c : String) (md : List (String × PyVal)) :
    (add_edge g source target et dc s c md).nodes =
      (nxEnsureNode (nxEnsureNode g source) target).nodes := by
  unfold add_edge
  dsimp only
  split_ifs <;> simp [updNodeFeature_nodes]

/-- The edge dict after `add_edge` is the updated edge dict. -/
theorem add_edge_edges (g : SupplyChainGraph)
    (source target et dc : String) (s : ℚ) (c : String) (md : List (String × PyVal)) :
    (add_edge g source target et dc s c md).edges =
      assocUpd (source, target) (⟨et, dc, s, c, md⟩ : EdgeData)
        (nxEnsureNode (nxEnsureNode g source) target).edges := by
  unfold add_edge
  dsimp only
  split_ifs <;> simp [updNodeFeature_edges]

/-- C8, counterexample.  `g8` contains only node A.  Calling
`add_edge("A", "B", ...)` does not raise and does not leave the graph
unchanged: `nx.DiGraph.add_edge` silently creates the missing endpoint B
(with an empty attribute dict) and records the edge — there is no
validation of node existence anywhere in `add_edge`, and the class has no
`remove_edge` method at all. -/
theorem C8_counterexample :
    assocHas "B" g8.nodes = false ∧
    assocHas "B" g8'.nodes = true ∧
    assocFind ("A", "B") g8'.edges =
      some (⟨"depends_on", "data_flow", 1, "medium", []⟩ : EdgeData) ∧
    g8'.nodes ≠ g8.nodes := by
  refine ⟨by rfl, by rfl, by rfl, ?_⟩
  intro h
  have hB : assocHas "B" g8'.nodes = true := by rfl
  rw [h] at hB
  exact absurd hB (by decide)

/-- C8, amended.  For every graph state, calling `add_edge` with a target
node id not present in the graph raises nothing and silently creates the
missing node (networkx semantics) and records the edge attributes under
(source, target); no ValidationError exists in the code and `remove_edge`
is not implemented. -/
theorem C8_add_edge_amended (g : SupplyChainGraph)
    (source target et dc : String) (s : ℚ) (c : String) (md : List (String × PyVal))
    (h : assocHas target g.nodes = false) :
    assocHas target (add_edge g source target et dc s c md).nodes = true ∧
    assocFind (source, target) (add_edge g source target et dc s c md).edges =
      some (⟨et, dc, s, c, md⟩ : EdgeData) := by
  constructor
  · rw [add_edge_nodes]
    exact assocHas_nxEnsureNode _ target
  · rw [add_edge_edges]
    exact assocFind_assocUpd _ _ _

theorem C8_witness :
    assocHas "B" g8.nodes = false ∧
    (assocHas "B" (add_edge g8 "A" "B" "depends_on" "data_flow" 1 "medium" []).nodes = true ∧
     assocFind ("A", "B") (add_edge g8 "A" "B" "depends_on" "data_flow" 1 "medium" []).edges =
       some (⟨"depends_on", "data_flow", 1, "medium", []⟩ : EdgeData)) :=
  ⟨by rfl, C8_add_edge_amended g8 "A" "B" "depends_on" "data_flow" 1 "medium" [] (by rfl)⟩

/-- Members of a stable insertion come from the inserted element or the
list. -/
theorem mem_insStableBy {α : Type} (lt : α → α → Bool) (y x : α) :
    ∀ l : List α, x ∈ insStableBy lt y l → x = y ∨ x ∈ l := by
  intro l
  induction l with
  | nil =>
    intro h
    simp only [insStableBy] at h
    rcases List.mem_singleton.mp h with rfl
    exact Or.inl rfl
  | cons a as ih =>
    intro h
    simp only [insStableBy] at h
    split at h
    · rcases List.mem_cons.mp h with rfl | h
      · exact Or.inl rfl
      · exact Or.inr h
    · rcases List.mem_cons.mp h with rfl | h
      · exact Or.inr (List.mem_cons_self _ _)
      · rcases ih h with h | h
        · exact Or.inl h
        · exact Or.inr (List.mem_cons_of_mem _ h)

/-- The stable sort permutes: every member of the output is a member of
the input. -/
theorem mem_stableSortBy {α : Type} (lt : α → α → Bool) (x : α) :
    ∀ (l acc : List α), x ∈ l.foldl (fun a y => insStableBy lt y a) acc →
      x ∈ acc ∨ x ∈ l := by
  intro l
  induction l with
  | nil =>
    intro acc h
    exact Or.inl (by simpa using h)
  | cons a as ih =>
    intro acc h
    simp only [List.foldl_cons] at h
    rcases ih _ h with h | h
    · rcases mem_insStableBy lt a x acc h with rfl | h
      · exact Or.inr (List.mem_cons_self _ _)
      · exact Or.inl h
    · exact Or.inr (List.mem_cons_of_mem _ h)

/-- Every strategy in the capped-append loop is an original member or was
built by the constructor from a seed. -/
theorem mem_addStrategiesCapped {α : Type} (num : Nat) (mk : α → Nat → MitStrategy)
    (x : MitStrategy) :
    ∀ (ts : List α) (cur : List MitStrategy), x ∈ addStrategiesCapped num mk ts cur →
      x ∈ cur ∨ ∃ t k, t ∈ ts ∧ x = mk t k := by
  intro ts
  induction ts with
  | nil =>
    intro cur h
    exact Or.inl (by simpa [addStrategiesCapped] using h)
  | cons t rest ih =>
    intro cur h
    simp only [addStrategiesCapped] at h
    split at h
    · exact Or.inl h
    · rcases ih _ h with h | ⟨t', k, ht', rfl⟩
      · rcases List.mem_append.mp h with h | h
        · exact Or.inl h
        · rcases List.mem_singleton.mp h with rfl
          exact Or.inr ⟨t, cur.length, List.mem_cons_self _ _, rfl⟩
      · exact Or.inr ⟨t', k, List.mem_cons_of_mem _ ht', rfl⟩

/-- The index of an enumerated element is below the starting index plus
the list length. -/
theorem enumFrom_fst_lt {α : Type} :
    ∀ (l : List α) (n : Nat) (t : Nat × α), t ∈ l.enumFrom n → t.1 < n + l.length := by
  intro l
  induction l with
  | nil => intro n t h; cases h
  | cons a as ih =>
    intro n t h
    rcases List.mem_cons.mp h with rfl | h
    · simp
    · have := ih (n + 1) t h
      simp only [List.length_cons]
      omega

/-- Members of the stable sort are members of the input list. -/
theorem mem_of_mem_stableSortBy {α : Type} (lt : α → α → Bool) (x : α) (l : List α)
    (h : x ∈ stableSortBy lt l) : x ∈ l := by
  have h2 := mem_stableSortBy lt x l [] (by simpa [stableSortBy] using h)
  simpa using h2

/-- C9, amended.  Every strategy dict produced by
`generate_mitigation_strategies` carries a `riskReduction` that is an
integer on a 0-100 percent scale (in fact between 20 and 68), not a value
in [0, 1]; and no `paths_reduced` field is produced at all (the
`MitStrategy` key set is fixed). -/
theorem C9_risk_reduction_amended (g : SupplyChainGraph)
    (apO : Except Unit (List String)) (brO : Except Unit (List (String × String)))
    (ob oc op oe : Except Unit (List (String × ℚ)))
    (num : Nat) (res : List MitStrategy)
    (h : generate_mitigation_strategies g apO brO ob oc op oe num = .ok res) :
    ∀ strat ∈ res, 0 ≤ strat.riskReduction ∧ strat.riskReduction ≤ 100 := by
  intro strat hs
  unfold generate_mitigation_strategies at h
  rcases hi : identify_structural_vulnerabilities g apO brO with e | vulns
  · rw [hi] at h
    cases h
  · rw [hi] at h
    dsimp only at h
    injection h with h
    subst h
    have h1 := List.take_subset num _ hs
    have h2 := mem_of_mem_stableSortBy _ strat _ h1
    rcases mem_addStrategiesCapped num additionalStrategy strat _ _ h2 with
      h3 | ⟨t, k, ht, rfl⟩
    · rcases mem_addStrategiesCapped num categoryStrategy strat _ _ h3 with
        h4 | ⟨t, k, ht, rfl⟩
      · rcases mem_addStrategiesCapped num
          (centralityStrategy g) strat _ _ h4 with h5 | ⟨t, k, ht, rfl⟩
        · unfold spofStrategy at h5
          rcases hsp : vulns.single_points_of_failure with _ | ⟨top, rest⟩
          · rw [hsp] at h5
            cases h5
          · rw [hsp] at h5
            rcases List.mem_singleton.mp h5 with rfl
            constructor <;> norm_num
        · have hidx := enumFrom_fst_lt _ 0 t ht
          have hlen : ((stableSortBy
              (fun a b => b.2.betweenness_centrality < a.2.betweenness_centrality)
              (calculate_centrality_metrics g ob oc op oe)).take 3).length ≤ 3 :=
            List.length_take_le 3 _
          have hi3 : t.1 < 3 := by
            simp only [List.enum] at ht
            omega
          unfold centralityStrategy
          constructor <;> simp <;> omega
      · unfold categoryStrategy
        fin_cases ht <;> constructor <;> norm_num
    · unfold additionalStrategy
      fin_cases ht <;> constructor <;> norm_num

/-- C9, counterexample.  On the single-node graph `g9` (articulation
points, bridges and the iterative centrality metrics supplied with their
values for this graph), the engine's default request for 8 strategies
returns seven candidates whose riskReduction values are
55, 45, 35, 40, 25, 30, 20 — integer percentages.  The first value 55 is
not in [0, 1], and no candidate carries any `paths_reduced` field
(`generate_mitigation_strategies` never emits one). -/
theorem C9_counterexample :
    (generate_mitigation_strategies g9 (.ok []) (.ok []) (.ok [("V", 0)]) (.ok [("V", 0)])
        (.ok [("V", 1)]) (.ok [("V", 1)]) 8).map (fun l => l.map MitStrategy.riskReduction) =
      .ok [55, 45, 35, 40, 25, 30, 20] ∧
    ¬ ((55 : Int) ≤ 1) ∧
    ¬ "paths_reduced" ∈ ["id", "title", "riskReduction", "effectiveness",
      "implementationTime", "cost", "priority", "affectedVendors", "category",
      "description", "technicalDetails", "businessJustification"] := by
  refine ⟨?_, by norm_num, by decide⟩
  rw [show g9 = ⟨[("V", [("node_type", .str "vendor"), ("tier", .int 2), ("risk_score", .rat 0),
      ("criticality_score", .rat 0)])], [], [("V", ⟨"V", "vendor", 2, 0, 0, 0, 0, 0, []⟩)], []⟩
    from rfl]
  simp [generate_mitigation_strategies, identify_structural_vulnerabilities, percentile_linear,
    pySortAsc, insSortedAsc, totalDegree, inDegree, outDegree, pyDedup,
    calculate_centrality_metrics, degree_centrality_of, assocFind, stableSortBy, insStableBy,
    addStrategiesCapped, spofStrategy, centralityStrategy, categoryStrategy, additionalStrategy,
    category_strategies, additional_strategies, List.enum, List.enumFrom, pad3, nodeName,
    attrsGetStr]
  rfl

/-- The single strategy returned on `g9` when one strategy is requested. -/
def c9strat : MitStrategy :=
  ⟨"mit_001", "Enhanced Security for V", 55, "high", "3 weeks", "$$", 2, 0, "hardening",
   "Implement additional security controls for V.",
   "Deploy advanced monitoring and zero-trust access controls.",
   "V is a critical network hub protecting multiple dependencies."⟩

/-- Witness for C9's amended statement on the concrete graph `g9`. -/
theorem C9_witness :
    (generate_mitigation_strategies g9 (.ok []) (.ok []) (.ok [("V", 0)]) (.ok [("V", 0)])
        (.ok [("V", 1)]) (.ok [("V", 1)]) 1 = .ok [c9strat]) ∧
    (0 ≤ c9strat.riskReduction ∧ c9strat.riskReduction ≤ 100) := by
  have h : generate_mitigation_strategies g9 (.ok []) (.ok []) (.ok [("V", 0)]) (.ok [("V", 0)])
      (.ok [("V", 1)]) (.ok [("V", 1)]) 1 = .ok [c9strat] := by
    rw [show g9 = ⟨[("V", [("node_type", .str "vendor"), ("tier", .int 2), ("risk_score", .rat 0),
        ("criticality_score", .rat 0)])], [], [("V", ⟨"V", "vendor", 2, 0, 0, 0, 0, 0, []⟩)], []⟩
      from rfl]
    simp [generate_mitigation_strategies, identify_structural_vulnerabilities, percentile_linear,
      pySortAsc, insSortedAsc, totalDegree, inDegree, outDegree, pyDedup,
      calculate_centrality_metrics, degree_centrality_of, assocFind, stableSortBy, insStableBy,
      addStrategiesCapped, spofStrategy, centralityStrategy, categoryStrategy, additionalStrategy,
      category_strategies, additional_strategies, List.enum, List.enumFrom, pad3, nodeName,
      attrsGetStr, c9strat, successors]
    rfl
  exact ⟨h, C9_risk_reduction_amended g9 _ _ _ _ _ _ 1 [c9strat] h c9strat
    (List.mem_singleton.mpr rfl)⟩
